import Mathlib

/-!
# Azure DevOps OAuth sample (`api-samples/identity-azure/identity-azure.js`)

A shallow embedding of the page script `identity-azure.js`.  The script is one
closure, `onLoad`, holding two variables (`state`, `access_token`), three
buttons, a log area and a profile area, and a handful of handlers that mutate
them.  Here the closure's variables and the parts of the document the script
touches are the fields of `Page`; every handler is a function on `Page`.

What the browser supplies (the `URL` constructor, `JSON.stringify`,
`chrome.identity.getRedirectURL`, the text of an engine `TypeError`) is a
parameter, `Platform`; what arrives from outside at run time (the digits drawn
by `Math.random`, the outcome of the web-auth flow, the outcome of `fetch`) is
carried by the `Event` that delivers it.
-/

namespace IdentityAzure

/-! ## Values -/

/-- JavaScript values as the script meets them: the result of `response.json()`
and the arguments of `displayOutput`.

A number is carried by `text`, the decimal text `Number.prototype.toString`
gives for it (`-3`, `0.5`, `1e+21`, `NaN`); that text tells two numbers apart
but for the sign of zero, which nothing here depends on.  The script never
computes with a number, it only tests and prints it.

An object is carried by its members in the order of the JSON text; no member
is a function, since none comes out of `JSON.parse`. -/
inductive JSValue where
  | undefined
  | null
  | boolean (b : Bool)
  | number (text : String)
  | string (s : String)
  | array (items : List JSValue)
  | object (props : List (String × JSValue))

/-- ToBoolean, the test behind `if (v)`, `!v` and `v || w`. -/
def JSValue.toBoolean : JSValue → Bool
  | .undefined => false
  | .null => false
  | .boolean b => b
  | .number text => text != "0" && text != "NaN"
  | .string s => s != ""
  | .array _ => true
  | .object _ => true

mutual
/-- ToString, as applied by `'text' + v`; `none` stands for the `TypeError`
of ToPrimitive.  An object is converted by `Object.prototype.toString` unless
it has a member of its own called `toString`: that member is no function, so
neither `valueOf` (which returns the object) nor `toString` yields a primitive
and the conversion throws.  An array is converted by `join`. -/
def JSValue.toStr : JSValue → Option String
  | .undefined => some "undefined"
  | .null => some "null"
  | .boolean b => some (if b then "true" else "false")
  | .number text => some text
  | .string s => some s
  | .array items => JSValue.join items
  | .object props =>
    if props.any (fun kv => kv.1 == "toString") then none else some "[object Object]"
termination_by structural v => v
/-- `Array.prototype.join(',')`: `undefined` and `null` items render empty,
every other item by ToString, which may throw. -/
def JSValue.join : List JSValue → Option String
  | [] => some ""
  | x :: rest =>
    match (match x with
      | .undefined => some ""
      | .null => some ""
      | v => JSValue.toStr v), JSValue.join rest with
    | some first, some others =>
      some (first ++ (match rest with | [] => "" | _ => ",") ++ others)
    | _, _ => none
termination_by structural l => l
end

/-- Property read `v.key`, for the names the script reads (`displayName`,
`emailAddress`, `publicAlias`).  `none` stands for the `TypeError` thrown when
`v` is `undefined` or `null`; a primitive or an array has no property of these
names and reads `undefined`; an object reads its member called `key`, the last
one when the JSON text repeats the name (as `JSON.parse` keeps it), and
`undefined` when it has none. -/
def JSValue.getProp (v : JSValue) (key : String) : Option JSValue :=
  match v with
  | .undefined => none
  | .null => none
  | .object props =>
    match props.reverse.find? (fun kv => kv.1 == key) with
    | some kv => some kv.2
    | none => some .undefined
  | _ => some .undefined

/-! ## Platform and configuration -/

/-- The object `chrome.runtime.lastError`; its `message` may be missing. -/
structure LastError where
  message : Option String

/-- What the browser provides to the script. -/
structure Platform where
  /-- Value of `chrome.identity.getRedirectURL()`. -/
  getRedirectURL : String
  /-- The call `new URL(s)`, observed through `searchParams`: the name/value
  entries of the query in order, or `none` when the constructor throws. -/
  newURL : String → Option (List (String × String))
  /-- The call `JSON.stringify(v, null, 2)`. -/
  jsonStringify : JSValue → String
  /-- Message of the `TypeError` raised by reading a property of `null`. -/
  nullReadMessage : String
  /-- Message of the `TypeError` raised when an object has no primitive value. -/
  convertMessage : String

/-- The call `url.searchParams.get(name)`: the value of the first entry called
`name`, or `none` for `null`. -/
def searchParamsGet (entries : List (String × String)) (name : String) : Option String :=
  (entries.find? (fun kv => kv.1 == name)).map Prod.snd

/-- Shape of the object `azureConfig`. -/
structure AzureConfig where
  clientId : String
  scopes : String
  authorizationUrl : String
  tokenUrl : String
  profileUrl : String

/-- The object `azureConfig` as it stands in the sample. -/
def azureConfig : AzureConfig where
  clientId := "YOUR_AZURE_APP_ID"
  scopes := "vso.profile vso.project"
  authorizationUrl := "https://app.vssps.visualstudio.com/oauth2/authorize"
  tokenUrl := "https://app.vssps.visualstudio.com/oauth2/token"
  profileUrl := "https://app.vssps.visualstudio.com/_apis/profile/profiles/me?api-version=6.0"

/-! ## `encodeURIComponent` and `generateRandomState` -/

/-- Characters `encodeURIComponent` leaves as they are:
letters, digits and `- _ . ! ~ * ' ( )`. -/
def uriUnreserved (c : Char) : Bool :=
  c.isAlphanum || c == '-' || c == '_' || c == '.' || c == '!' || c == '~' ||
    c == '*' || c == Char.ofNat 39 || c == '(' || c == ')'

/-- Upper-case hexadecimal digit of a value below sixteen. -/
def hexDigit (n : Nat) : Char :=
  if n < 10 then Char.ofNat (48 + n) else Char.ofNat (55 + n)

/-- UTF-8 code units of a character. -/
def utf8Bytes (c : Char) : List Nat :=
  let n := c.toNat
  if n < 0x80 then [n]
  else if n < 0x800 then [0xC0 + n / 64, 0x80 + n % 64]
  else if n < 0x10000 then [0xE0 + n / 4096, 0x80 + n / 64 % 64, 0x80 + n % 64]
  else [0xF0 + n / 262144, 0x80 + n / 4096 % 64, 0x80 + n / 64 % 64, 0x80 + n % 64]

/-- Escape `%XX` of one byte. -/
def pctEncodeByte (b : Nat) : List Char :=
  ['%', hexDigit (b / 16), hexDigit (b % 16)]

/-- Encoding of one character by `encodeURIComponent`. -/
def encodeURIChar (c : Char) : List Char :=
  if uriUnreserved c then [c] else (utf8Bytes c).flatMap pctEncodeByte

/-- The global `encodeURIComponent`.  A Lean string holds no lone surrogate, so
the `URIError` case does not arise. -/
def encodeURIComponent (s : String) : String :=
  String.mk (s.data.flatMap encodeURIChar)

/-- Digit of `Number.prototype.toString(36)`. -/
def radix36Digit (d : Fin 36) : Char :=
  if d.val < 10 then Char.ofNat (48 + d.val) else Char.ofNat (87 + d.val)

/-- The text `Math.random().toString(36)`, given the base-36 digits of the
fraction drawn: `0` when there is none, else `0.` followed by the digits. -/
def randomToString36 (digits : List (Fin 36)) : String :=
  match digits with
  | [] => "0"
  | _ => String.mk ('0' :: '.' :: digits.map radix36Digit)

/-- The method `s.substring(start, stop)` for `start ≤ stop`. -/
def substring (s : String) (start stop : Nat) : String :=
  String.mk ((s.data.drop start).take (stop - start))

/-- Source `generateRandomState`, lines 229-234; `r1` and `r2` are the digits
of the two `Math.random()` draws. -/
def generateRandomState (r1 r2 : List (Fin 36)) : String :=
  substring (randomToString36 r1) 2 15 ++ substring (randomToString36 r2) 2 15

/-- The template `authUrl` of `interactiveSignIn`, lines 91-97. -/
def authUrl (cfg : AzureConfig) (redirectUri state : String) : String :=
  cfg.authorizationUrl ++ "?" ++
    ("client_id=" ++ encodeURIComponent cfg.clientId ++ "&") ++
    "response_type=Assertion&" ++
    ("state=" ++ state ++ "&") ++
    ("scope=" ++ encodeURIComponent cfg.scopes ++ "&") ++
    ("redirect_uri=" ++ encodeURIComponent redirectUri)

/-! ## The page -/

/-- Constant `STATE_START`. -/
def STATE_START : Nat := 1
/-- Constant `STATE_ACQUIRING_AUTHTOKEN`. -/
def STATE_ACQUIRING_AUTHTOKEN : Nat := 2
/-- Constant `STATE_AUTHTOKEN_ACQUIRED`. -/
def STATE_AUTHTOKEN_ACQUIRED : Nat := 3

/-- The three buttons of the page. -/
inductive Button where
  | signin_button
  | userinfo_button
  | revoke_button
deriving DecidableEq, Repr

/-- A request handed to `fetch`. -/
structure FetchRequest where
  url : String
  method : String
  authorization : String
  contentType : String
deriving DecidableEq, Repr

/-- The closure variables of `onLoad` and the parts of the document and of the
browser the script writes to. -/
structure Page where
  /-- Variable `state`. -/
  state : Nat
  /-- Variable `access_token`; `none` is `null`. -/
  access_token : Option String
  /-- Whether `#signin` carries the attribute `disabled`. -/
  signin_disabled : Bool
  /-- Whether `#userinfo` carries the attribute `disabled`. -/
  userinfo_disabled : Bool
  /-- Whether `#revoke` carries the attribute `disabled`. -/
  revoke_disabled : Bool
  /-- Value of `#__logarea`. -/
  logarea : String
  /-- Children of `#user_info`, each by the markup assigned to it. -/
  user_info : List String
  /-- Lines written by `console.log`. -/
  console : List String
  /-- URLs handed to `chrome.identity.launchWebAuthFlow`, oldest first. -/
  authFlows : List String
  /-- Web-auth flows launched whose callback has not run yet. -/
  pendingAuthFlows : Nat
  /-- Requests handed to `fetch`, oldest first. -/
  fetches : List FetchRequest
  /-- Requests whose promise has not settled yet. -/
  pendingFetches : Nat
deriving DecidableEq, Repr

/-- How a function body ends: it returns, or it throws with the page as it was
at the throw. -/
inductive Outcome where
  | returned (p : Page)
  | threw (message : String) (p : Page)
deriving DecidableEq, Repr

/-- Page an outcome leaves behind. -/
def Outcome.page : Outcome → Page
  | .returned p => p
  | .threw _ p => p

/-- Whether a button carries `disabled`. -/
def Button.disabled (button : Button) (p : Page) : Bool :=
  match button with
  | .signin_button => p.signin_disabled
  | .userinfo_button => p.userinfo_disabled
  | .revoke_button => p.revoke_disabled

/-- Source `disableButton`, lines 44-46. -/
def disableButton (button : Button) (p : Page) : Page :=
  match button with
  | .signin_button => { p with signin_disabled := true }
  | .userinfo_button => { p with userinfo_disabled := true }
  | .revoke_button => { p with revoke_disabled := true }

/-- Source `enableButton`, lines 48-50. -/
def enableButton (button : Button) (p : Page) : Page :=
  match button with
  | .signin_button => { p with signin_disabled := false }
  | .userinfo_button => { p with userinfo_disabled := false }
  | .revoke_button => { p with revoke_disabled := false }

/-- Source `displayOutput`, lines 74-80. -/
def displayOutput (P : Platform) (message : JSValue) (p : Page) : Page :=
  let messageStr :=
    match message with
    | .string s => s
    | m => P.jsonStringify m
  { p with logarea := messageStr }

/-- Source `changeState`, lines 52-72; a value that is none of the three
constants falls through the `switch`. -/
def changeState (P : Platform) (newState : Nat) (p : Page) : Page :=
  let p := { p with state := newState }
  if p.state = STATE_START then
    disableButton .revoke_button (disableButton .userinfo_button (enableButton .signin_button p))
  else if p.state = STATE_ACQUIRING_AUTHTOKEN then
    disableButton .revoke_button (disableButton .userinfo_button (disableButton .signin_button
      (displayOutput P (.string "Acquiring token...") p)))
  else if p.state = STATE_AUTHTOKEN_ACQUIRED then
    enableButton .revoke_button (enableButton .userinfo_button (disableButton .signin_button p))
  else p

/-! ## Handlers -/

/-- Source `exchangeCodeForToken`, lines 135-153. -/
def exchangeCodeForToken (P : Platform) (cfg : AzureConfig) (code : String) (p : Page) : Page :=
  let p := displayOutput P
    (.string ("Authorization code received: " ++ code ++ "\n\n" ++
      "IMPORTANT: In a production application, you should exchange this code\n" ++
      "for an access token on your backend server to keep your client secret secure.\n\n" ++
      "For now, you can manually exchange the code at:\n" ++
      cfg.tokenUrl)) p
  changeState P STATE_AUTHTOKEN_ACQUIRED p

/-- Source `interactiveSignIn`, lines 86-103 and 127-128: the body up to the
point where the callback is handed to `launchWebAuthFlow`. -/
def interactiveSignIn (P : Platform) (cfg : AzureConfig) (r1 r2 : List (Fin 36)) (p : Page) :
    Page :=
  let p := changeState P STATE_ACQUIRING_AUTHTOKEN p
  let p := { p with console := p.console ++ ["Starting Azure DevOps authentication..."] }
  let redirectUri := P.getRedirectURL
  let url := authUrl cfg redirectUri (generateRandomState r1 r2)
  { p with authFlows := p.authFlows ++ [url], pendingAuthFlows := p.pendingAuthFlows + 1 }

/-- The callback given to `launchWebAuthFlow`, lines 104-126.  `lastError` is
`chrome.runtime.lastError` at the time of the call, `redirectUrl` the argument
(`none` for `undefined`). -/
def authFlowCallback (P : Platform) (cfg : AzureConfig) (lastError : Option LastError)
    (redirectUrl : Option String) (p : Page) : Outcome :=
  if lastError.isSome || !(JSValue.toBoolean (redirectUrl.elim .undefined .string)) then
    let message :=
      match lastError with
      | some e =>
        match e.message with
        | some m => if m != "" then m else "No redirect URL"
        | none => "No redirect URL"
      | none => "No redirect URL"
    .returned (changeState P STATE_START (displayOutput P (.string ("Error: " ++ message)) p))
  else
    match P.newURL (redirectUrl.getD "") with
    | none => .threw "Invalid URL" p
    | some searchParams =>
      match searchParamsGet searchParams "code" with
      | some code =>
        if code != "" then
          let p := displayOutput P
            (.string "Authorization code received. Exchanging for access token...") p
          .returned (exchangeCodeForToken P cfg code p)
        else
          .returned (changeState P STATE_START
            (displayOutput P (.string "Error: No authorization code in redirect URL") p))
      | none =>
        .returned (changeState P STATE_START
          (displayOutput P (.string "Error: No authorization code in redirect URL") p))

/-- One block `if (userProfile.x) ...` of `populateUserInfo` (lines 197-201,
203-207, 209-213): when the value passes the test, a `div` whose markup is
`label + value` is appended to `#user_info`.  `none` stands for the `TypeError`
of the concatenation, thrown before the `div` gets its markup. -/
def appendField (label : String) (value : JSValue) (p : Page) : Option Page :=
  if value.toBoolean then
    match value.toStr with
    | some text => some { p with user_info := p.user_info ++ [label ++ text] }
    | none => none
  else some p

/-- Source `populateUserInfo`, lines 194-214. -/
def populateUserInfo (P : Platform) (userProfile : JSValue) (p : Page) : Outcome :=
  let p := { p with user_info := [] }
  match userProfile.getProp "displayName" with
  | none => .threw P.nullReadMessage p
  | some displayName =>
    match appendField "<b>Display Name:</b> " displayName p with
    | none => .threw P.convertMessage p
    | some p =>
      match userProfile.getProp "emailAddress" with
      | none => .threw P.nullReadMessage p
      | some emailAddress =>
        match appendField "<b>Email:</b> " emailAddress p with
        | none => .threw P.convertMessage p
        | some p =>
          match userProfile.getProp "publicAlias" with
          | none => .threw P.nullReadMessage p
          | some publicAlias =>
            match appendField "<b>Public Alias:</b> " publicAlias p with
            | none => .threw P.convertMessage p
            | some p => .returned p

/-- Source `getUserInfo`, lines 158-172: the body up to the call of `fetch`. -/
def getUserInfo (P : Platform) (cfg : AzureConfig) (p : Page) : Page :=
  if !(JSValue.toBoolean (p.access_token.elim .null .string)) then
    displayOutput P (.string "No access token available. Please sign in first.") p
  else
    let p := displayOutput P (.string "Fetching user profile...") p
    let request : FetchRequest :=
      { url := cfg.profileUrl
        method := "GET"
        authorization := "Bearer " ++ p.access_token.getD "null"
        contentType := "application/json" }
    { p with fetches := p.fetches ++ [request], pendingFetches := p.pendingFetches + 1 }

/-- How the promise of `fetch` settles. -/
inductive FetchResult where
  /-- The promise rejects (network failure) with an error of this message. -/
  | rejected (message : String)
  /-- The promise resolves with a response; `json` is what `response.json()`
  settles to, an error message when it rejects. -/
  | response (ok : Bool) (statusText : String) (json : Except String JSValue)

/-- The handler given to `.catch`, lines 185-188. -/
def fetchCatch (P : Platform) (errorMessage : String) (p : Page) : Page :=
  changeState P STATE_START
    (displayOutput P (.string ("Error fetching user info: " ++ errorMessage)) p)

/-- The promise chain of `getUserInfo`, lines 173-188, run on a settled
`fetch`. -/
def fetchSettled (P : Platform) (result : FetchResult) (p : Page) : Page :=
  match result with
  | .rejected message => fetchCatch P message p
  | .response ok statusText json =>
    if !ok then
      fetchCatch P ("Failed to fetch user profile: " ++ statusText) p
    else
      match json with
      | .error message => fetchCatch P message p
      | .ok userProfile =>
        match populateUserInfo P userProfile (displayOutput P userProfile p) with
        | .returned p => p
        | .threw message p => fetchCatch P message p

/-- Source `revokeToken`, lines 219-224. -/
def revokeToken (P : Platform) (p : Page) : Page :=
  let p := { p with access_token := none }
  let p := { p with user_info := [] }
  let p := changeState P STATE_START p
  displayOutput P (.string "Token revoked. You have been signed out.") p

/-- Source `onLoad`, lines 10-27 and 236-241.  `markup` is what the document
holds under `#user_info` when the script starts; the buttons and the log area
are overwritten before `onLoad` returns, so their first values do not matter. -/
def onLoad (P : Platform) (markup : List String) : Page :=
  let p : Page :=
    { state := STATE_START
      access_token := none
      signin_disabled := false
      userinfo_disabled := false
      revoke_disabled := false
      logarea := ""
      user_info := markup
      console := []
      authFlows := []
      pendingAuthFlows := 0
      fetches := []
      pendingFetches := 0 }
  let p := changeState P STATE_START p
  displayOutput P
    (.string ("Ready to authenticate with Azure DevOps.\n\n" ++
      "Click \"Sign in to Azure DevOps\" to begin the OAuth flow.")) p

/-! ## Events -/

/-- What can happen to the page after `onLoad`. -/
inductive Event where
  /-- A click on `#signin`; `r1`, `r2` are the digits `Math.random` draws. -/
  | signinClick (r1 r2 : List (Fin 36))
  /-- A click on `#userinfo`. -/
  | userinfoClick
  /-- A click on `#revoke`. -/
  | revokeClick
  /-- The browser runs the callback of a web-auth flow. -/
  | authFlowDone (lastError : Option LastError) (redirectUrl : Option String)
  /-- The promise of a `fetch` settles. -/
  | fetchDone (result : FetchResult)

/-- Button an event clicks, if it is a click. -/
def Event.button : Event → Option Button
  | .signinClick _ _ => some .signin_button
  | .userinfoClick => some .userinfo_button
  | .revokeClick => some .revoke_button
  | _ => none

/-- Runs the listener or callback of an event, whatever the page looks like:
a handler called directly. -/
def handle (P : Platform) (cfg : AzureConfig) (e : Event) (p : Page) : Page :=
  match e with
  | .signinClick r1 r2 => interactiveSignIn P cfg r1 r2 p
  | .userinfoClick => getUserInfo P cfg p
  | .revokeClick => revokeToken P p
  | .authFlowDone lastError redirectUrl =>
    (authFlowCallback P cfg lastError redirectUrl
      { p with pendingAuthFlows := p.pendingAuthFlows - 1 }).page
  | .fetchDone result => fetchSettled P result { p with pendingFetches := p.pendingFetches - 1 }

/-- Whether the browser can deliver the event: a click reaches its listener
only on a button without `disabled`, a callback runs only for a flow that was
launched and a promise settles only for a request that was made. -/
def Event.deliverable (e : Event) (p : Page) : Bool :=
  match e with
  | .authFlowDone _ _ => decide (0 < p.pendingAuthFlows)
  | .fetchDone _ => decide (0 < p.pendingFetches)
  | click => !((click.button.map (fun b => b.disabled p)).getD false)

/-- One event as the browser delivers it; an event it cannot deliver leaves the
page alone. -/
def step (P : Platform) (cfg : AzureConfig) (e : Event) (p : Page) : Page :=
  if e.deliverable p then handle P cfg e p else p

/-- The page after a sequence of handler calls made directly. -/
def runHandlers (P : Platform) (cfg : AzureConfig) (es : List Event) (p : Page) : Page :=
  es.foldl (fun q e => handle P cfg e q) p

/-- The page after a sequence of events delivered by the browser. -/
def run (P : Platform) (cfg : AzureConfig) (es : List Event) (p : Page) : Page :=
  es.foldl (fun q e => step P cfg e q) p

/-! ## Predicates used by the statements -/

/-- The table of section 4.1: `#signin` is enabled exactly in `STATE_START`,
`#userinfo` and `#revoke` exactly in `STATE_AUTHTOKEN_ACQUIRED`, and `state` is
one of the three constants. -/
def ButtonsFollowState (p : Page) : Prop :=
  (p.state = STATE_START ∨ p.state = STATE_ACQUIRING_AUTHTOKEN ∨
      p.state = STATE_AUTHTOKEN_ACQUIRED) ∧
    (p.signin_disabled = false ↔ p.state = STATE_START) ∧
    (p.userinfo_disabled = false ↔ p.state = STATE_AUTHTOKEN_ACQUIRED) ∧
    (p.revoke_disabled = false ↔ p.state = STATE_AUTHTOKEN_ACQUIRED)

/-- The variable `state` and the three `disabled` attributes. -/
def Page.controls (p : Page) : Nat × Bool × Bool × Bool :=
  (p.state, p.signin_disabled, p.userinfo_disabled, p.revoke_disabled)

/-- The row of the table a value of `state` selects. -/
def controlsOf (state : Nat) : Nat × Bool × Bool × Bool :=
  (state, state != STATE_START, state != STATE_AUTHTOKEN_ACQUIRED,
    state != STATE_AUTHTOKEN_ACQUIRED)

/-- Text the callback shows after `Error: ` when the flow failed. -/
def failureText (lastError : Option LastError) : String :=
  match lastError with
  | some e =>
    match e.message with
    | some m => if m != "" then m else "No redirect URL"
    | none => "No redirect URL"
  | none => "No redirect URL"

/-- The guard of line 105 holds: `lastError` is set, or the redirect URL is
`undefined` or empty. -/
def flowFailed (lastError : Option LastError) (redirectUrl : Option String) : Prop :=
  lastError.isSome = true ∨ redirectUrl = none ∨ redirectUrl = some ""

instance (lastError : Option LastError) (redirectUrl : Option String) :
    Decidable (flowFailed lastError redirectUrl) := by
  unfold flowFailed; infer_instance

/-! ## A platform to evaluate on

The properties below hold for every `Platform`.  To run the script on concrete
inputs one platform is fixed here: `URL` for strings that start with a scheme
(host syntax is not checked), with the query read by the
`application/x-www-form-urlencoded` parser, and `JSON.stringify` with an indent
of two. -/

/-- Splits a text at every occurrence of a separator. -/
def splitAt (sep : Char) : List Char → List (List Char)
  | [] => [[]]
  | c :: cs =>
    if c = sep then [] :: splitAt sep cs
    else
      match splitAt sep cs with
      | w :: ws => (c :: w) :: ws
      | [] => [[c]]

/-- Value of a hexadecimal digit, either case. -/
def hexValue (c : Char) : Option Nat :=
  if '0' ≤ c ∧ c ≤ '9' then some (c.toNat - 48)
  else if 'A' ≤ c ∧ c ≤ 'F' then some (c.toNat - 55)
  else if 'a' ≤ c ∧ c ≤ 'f' then some (c.toNat - 87)
  else none

/-- The byte a `%XX` escape stands for, when the text after a `%` starts with
two hexadecimal digits. -/
def escapedByte (rest : List Char) : Option Nat :=
  match rest with
  | h :: l :: _ =>
    match hexValue h, hexValue l with
    | some x, some y => some (x * 16 + y)
    | _, _ => none
  | _ => none

/-- Percent-decoding into bytes, after skipping `skip` characters: `%XX` is one
byte, any other character its UTF-8 code units. -/
def percentDecodeFrom : Nat → List Char → List Nat
  | _, [] => []
  | skip + 1, _ :: rest => percentDecodeFrom skip rest
  | 0, c :: rest =>
    if c = '%' then
      match escapedByte rest with
      | some b => b :: percentDecodeFrom 2 rest
      | none => 37 :: percentDecodeFrom 0 rest
    else utf8Bytes c ++ percentDecodeFrom 0 rest

/-- Percent-decoding into bytes. -/
def percentDecode (cs : List Char) : List Nat := percentDecodeFrom 0 cs

/-- Whether a byte continues a UTF-8 sequence. -/
def isContinuation (b : Nat) : Bool := decide (0x80 ≤ b) && decide (b < 0xC0)

/-- The character a UTF-8 sequence starting with `b0` encodes and the number of
bytes it takes; a byte that starts no well-formed sequence is U+FFFD. -/
def decodeOne (b0 : Nat) (rest : List Nat) : Char × Nat :=
  if b0 < 0x80 then (Char.ofNat b0, 1)
  else
    match rest with
    | [] => (Char.ofNat 0xFFFD, 1)
    | b1 :: rest1 =>
      if 0xC2 ≤ b0 ∧ b0 < 0xE0 ∧ isContinuation b1 then
        (Char.ofNat ((b0 - 0xC0) * 64 + (b1 - 0x80)), 2)
      else
        match rest1 with
        | [] => (Char.ofNat 0xFFFD, 1)
        | b2 :: rest2 =>
          if 0xE0 ≤ b0 ∧ b0 < 0xF0 ∧ isContinuation b1 ∧ isContinuation b2 ∧
              0x800 ≤ (b0 - 0xE0) * 4096 + (b1 - 0x80) * 64 + (b2 - 0x80) ∧
              ¬ (0xD800 ≤ (b0 - 0xE0) * 4096 + (b1 - 0x80) * 64 + (b2 - 0x80) ∧
                (b0 - 0xE0) * 4096 + (b1 - 0x80) * 64 + (b2 - 0x80) < 0xE000) then
            (Char.ofNat ((b0 - 0xE0) * 4096 + (b1 - 0x80) * 64 + (b2 - 0x80)), 3)
          else
            match rest2 with
            | [] => (Char.ofNat 0xFFFD, 1)
            | b3 :: _ =>
              if 0xF0 ≤ b0 ∧ b0 < 0xF5 ∧ isContinuation b1 ∧ isContinuation b2 ∧
                  isContinuation b3 ∧
                  0x10000 ≤ (b0 - 0xF0) * 262144 + (b1 - 0x80) * 4096 + (b2 - 0x80) * 64 +
                    (b3 - 0x80) ∧
                  (b0 - 0xF0) * 262144 + (b1 - 0x80) * 4096 + (b2 - 0x80) * 64 + (b3 - 0x80) <
                    0x110000 then
                (Char.ofNat ((b0 - 0xF0) * 262144 + (b1 - 0x80) * 4096 + (b2 - 0x80) * 64 +
                  (b3 - 0x80)), 4)
              else (Char.ofNat 0xFFFD, 1)

/-- UTF-8 decoding, after skipping `skip` bytes. -/
def utf8DecodeFrom : Nat → List Nat → List Char
  | _, [] => []
  | skip + 1, _ :: rest => utf8DecodeFrom skip rest
  | 0, b0 :: rest => (decodeOne b0 rest).1 :: utf8DecodeFrom ((decodeOne b0 rest).2 - 1) rest

/-- UTF-8 decoding. -/
def utf8Decode (bytes : List Nat) : List Char := utf8DecodeFrom 0 bytes

/-- Decoding of one name or value of a query: `+` is a space, then
percent-decoding, then UTF-8. -/
def formDecode (cs : List Char) : String :=
  String.mk (utf8Decode (percentDecode (cs.map (fun c => if c = '+' then ' ' else c))))

/-- Name and value of one `name=value` piece, cut at the first `=`. -/
def nameValue (piece : List Char) : List Char × List Char :=
  (piece.takeWhile (fun c => c != '='), (piece.dropWhile (fun c => c != '=')).drop 1)

/-- The `application/x-www-form-urlencoded` parser on the text of a query. -/
def parseQuery (query : List Char) : List (String × String) :=
  ((splitAt '&' query).filter (fun piece => !piece.isEmpty)).map
    (fun piece => (formDecode (nameValue piece).1, formDecode (nameValue piece).2))

/-- Text of the query of a URL: what stands after the first `?` and before the
first `#`. -/
def queryText (url : List Char) : List Char :=
  ((url.takeWhile (fun c => c != '#')).dropWhile (fun c => c != '?')).drop 1

/-- Whether a text starts with a scheme: a letter, then letters, digits, `+`,
`-` or `.`, then `:`. -/
def hasScheme (url : List Char) : Bool :=
  match url with
  | [] => false
  | c :: cs =>
    c.isAlpha &&
      (cs.dropWhile (fun d => d.isAlphanum || d == '+' || d == '-' || d == '.')).head? ==
        some ':'

/-- Entries of `new URL(s).searchParams`, for a text with a scheme. -/
def sampleNewURL (s : String) : Option (List (String × String)) :=
  if hasScheme s.data then some (parseQuery (queryText s.data)) else none

/-- The escape `JSON.stringify` writes for a character of a string. -/
def jsonEscape (c : Char) : List Char :=
  if c = '"' then ['\\', '"']
  else if c = '\\' then ['\\', '\\']
  else if c = '\n' then ['\\', 'n']
  else if c = '\r' then ['\\', 'r']
  else if c = '\t' then ['\\', 't']
  else if c.toNat = 8 then ['\\', 'b']
  else if c.toNat = 12 then ['\\', 'f']
  else if c.toNat < 32 then
    ['\\', 'u', '0', '0', (hexDigit (c.toNat / 16)).toLower, (hexDigit (c.toNat % 16)).toLower]
  else [c]

/-- A string as `JSON.stringify` quotes it. -/
def jsonQuote (s : String) : String :=
  "\"" ++ String.mk (s.data.flatMap jsonEscape) ++ "\""

mutual
/-- Text of a value inside `JSON.stringify(v, null, 2)` at an indentation;
`undefined` is written `null`, as it is for an item of an array. -/
def jsonText (indent : String) : JSValue → String
  | .undefined => "null"
  | .null => "null"
  | .boolean b => if b then "true" else "false"
  | .number text =>
    if text == "NaN" || text == "Infinity" || text == "-Infinity" then "null" else text
  | .string s => jsonQuote s
  | .array items =>
    match jsonItems (indent ++ "  ") items with
    | [] => "[]"
    | lines => "[\n" ++ ",\n".intercalate lines ++ "\n" ++ indent ++ "]"
  | .object props =>
    match jsonProps (indent ++ "  ") props with
    | [] => "\x7b\x7d"
    | lines => "\x7b\n" ++ ",\n".intercalate lines ++ "\n" ++ indent ++ "\x7d"
termination_by structural v => v
/-- One line for each item of an array. -/
def jsonItems (indent : String) : List JSValue → List String
  | [] => []
  | v :: rest => (indent ++ jsonText indent v) :: jsonItems indent rest
termination_by structural l => l
/-- One line for each property of an object whose names are distinct and none
an array index; a property whose value is `undefined` is left out. -/
def jsonProps (indent : String) : List (String × JSValue) → List String
  | [] => []
  | (key, v) :: rest =>
    match v with
    | .undefined => jsonProps indent rest
    | w => (indent ++ jsonQuote key ++ ": " ++ jsonText indent w) :: jsonProps indent rest
termination_by structural l => l
end

/-- The call `JSON.stringify(v, null, 2)`, assigned to the value of a text
area (`undefined` reads as the text `undefined` there). -/
def sampleStringify (v : JSValue) : String :=
  match v with
  | .undefined => "undefined"
  | w => jsonText "" w

/-- The platform the closed evaluations below run on. -/
def samplePlatform : Platform where
  getRedirectURL := "https://ext/cb"
  newURL := sampleNewURL
  jsonStringify := sampleStringify
  nullReadMessage := "Cannot read properties of null"
  convertMessage := "Cannot convert object to primitive value"

/-- Text of a value on the page, where it has one. -/
def JSValue.text (v : JSValue) : String := v.toStr.getD ""

/-- A value shown on the page can be written as text: it fails the test
`if (v)`, or ToString returns for it. -/
def JSValue.printable (v : JSValue) : Prop := v.toBoolean = true → v.toStr ≠ none

/-- The values of `displayName`, `emailAddress` and `publicAlias` can all be
written as text. -/
def printableProfile (userProfile : JSValue) : Prop :=
  ∀ key ∈ ["displayName", "emailAddress", "publicAlias"],
    ∀ v, userProfile.getProp key = some v → v.printable

/-- The labelled fields of a profile, in the order name, e-mail, alias: one for
each of the three properties whose value passes `if (userProfile.x)`. -/
def presentFields (userProfile : JSValue) : List String :=
  [("<b>Display Name:</b> ", "displayName"), ("<b>Email:</b> ", "emailAddress"),
    ("<b>Public Alias:</b> ", "publicAlias")].filterMap
    (fun labelKey =>
      match userProfile.getProp labelKey.2 with
      | some value => if value.toBoolean then some (labelKey.1 ++ value.text) else none
      | none => none)

/-- What holds of every page the browser can bring about: the buttons follow
`state`, no token is held, no request is in flight, and a web-auth flow is
pending only in `STATE_ACQUIRING_AUTHTOKEN`, one at most. -/
def Settled (p : Page) : Prop :=
  ButtonsFollowState p ∧ p.access_token = none ∧ p.pendingFetches = 0 ∧
    (p.pendingAuthFlows = 0 ∨
      (p.pendingAuthFlows = 1 ∧ p.state = STATE_ACQUIRING_AUTHTOKEN))

/-- The changes of `state` one event may bring, from page `p` to page `q`:
none, or one of the four transitions of section 4.1 with the event that
causes it. -/
def AllowedStep (P : Platform) (p : Page) (e : Event) (q : Page) : Prop :=
  q.state = p.state ∨
  (p.state = STATE_START ∧ q.state = STATE_ACQUIRING_AUTHTOKEN ∧
    ∃ r1 r2, e = .signinClick r1 r2) ∨
  (p.state = STATE_ACQUIRING_AUTHTOKEN ∧ q.state = STATE_AUTHTOKEN_ACQUIRED ∧
    ∃ url entries code, e = .authFlowDone none (some url) ∧ P.newURL url = some entries ∧
      searchParamsGet entries "code" = some code ∧ code ≠ "") ∨
  (p.state = STATE_ACQUIRING_AUTHTOKEN ∧ q.state = STATE_START ∧
    ∃ lastError redirectUrl, e = .authFlowDone lastError redirectUrl ∧
      (lastError.isSome = true ∨ redirectUrl = none ∨ redirectUrl = some "" ∨
        ∃ url entries, redirectUrl = some url ∧ P.newURL url = some entries ∧
          (searchParamsGet entries "code" = none ∨
            searchParamsGet entries "code" = some ""))) ∨
  (p.state = STATE_AUTHTOKEN_ACQUIRED ∧ q.state = STATE_START ∧ e = .revokeClick)

/-- Number of places at which a text occurs in another. -/
def occurrences (needle : List Char) : List Char → Nat
  | [] => if needle.isEmpty then 1 else 0
  | c :: cs => occurrences needle cs + (if needle.isPrefixOf (c :: cs) then 1 else 0)

/-- The configuration of the scenario of section 8. -/
def scenarioConfig : AzureConfig :=
  { azureConfig with clientId := "abc", scopes := "vso.profile vso.project" }

/-! # Properties -/

/-! ## The table of enabled buttons -/

theorem changeState_start (P : Platform) (p : Page) :
    changeState P STATE_START p =
      { p with state := STATE_START, signin_disabled := false, userinfo_disabled := true,
               revoke_disabled := true } := by
  simp [changeState, enableButton, disableButton]

theorem changeState_acquiring (P : Platform) (p : Page) :
    changeState P STATE_ACQUIRING_AUTHTOKEN p =
      { p with state := STATE_ACQUIRING_AUTHTOKEN, signin_disabled := true,
               userinfo_disabled := true, revoke_disabled := true,
               logarea := "Acquiring token..." } := by
  simp [changeState, disableButton, displayOutput, STATE_START, STATE_ACQUIRING_AUTHTOKEN]

theorem changeState_acquired (P : Platform) (p : Page) :
    changeState P STATE_AUTHTOKEN_ACQUIRED p =
      { p with state := STATE_AUTHTOKEN_ACQUIRED, signin_disabled := true,
               userinfo_disabled := false, revoke_disabled := false } := by
  simp [changeState, enableButton, disableButton, STATE_START, STATE_ACQUIRING_AUTHTOKEN,
    STATE_AUTHTOKEN_ACQUIRED]

theorem displayOutput_string (P : Platform) (s : String) (p : Page) :
    displayOutput P (.string s) p = { p with logarea := s } := rfl

theorem displayOutput_eq (P : Platform) (m : JSValue) (p : Page) :
    ∃ text, displayOutput P m p = { p with logarea := text } := by
  cases m <;> exact ⟨_, rfl⟩

theorem appendField_eq (label : String) (value : JSValue) (p q : Page)
    (h : appendField label value p = some q) :
    q = { p with user_info := q.user_info } := by
  unfold appendField at h
  split at h
  · split at h
    · cases h; rfl
    · cases h
  · cases h; rfl

/-- Outcome of `populateUserInfo`: only the children of `#user_info` change. -/
theorem populateUserInfo_page (P : Platform) (v : JSValue) (p : Page) :
    ∃ kids, (populateUserInfo P v p).page = { p with user_info := kids } := by
  refine ⟨(populateUserInfo P v p).page.user_info, ?_⟩
  simp only [populateUserInfo]
  cases v.getProp "displayName" with
  | none => rfl
  | some d =>
    dsimp only
    cases h1 : appendField "<b>Display Name:</b> " d { p with user_info := [] } with
    | none => rfl
    | some p1 =>
      have e1 := appendField_eq _ _ _ _ h1
      dsimp only
      cases v.getProp "emailAddress" with
      | none => dsimp only [Outcome.page]; rw [e1]
      | some e =>
        dsimp only
        cases h2 : appendField "<b>Email:</b> " e p1 with
        | none => dsimp only [Outcome.page]; rw [e1]
        | some p2 =>
          have e2 := appendField_eq _ _ _ _ h2
          dsimp only
          cases v.getProp "publicAlias" with
          | none => dsimp only [Outcome.page]; rw [e2, e1]
          | some a =>
            dsimp only
            cases h3 : appendField "<b>Public Alias:</b> " a p2 with
            | none => dsimp only [Outcome.page]; rw [e2, e1]
            | some p3 =>
              have e3 := appendField_eq _ _ _ _ h3
              dsimp only [Outcome.page]
              rw [e3, e2, e1]

theorem fetchCatch_eq (P : Platform) (m : String) (p : Page) :
    fetchCatch P m p =
      { p with state := STATE_START, signin_disabled := false, userinfo_disabled := true,
               revoke_disabled := true, logarea := "Error fetching user info: " ++ m } := by
  simp [fetchCatch, changeState_start, displayOutput_string]

theorem buttonsFollowState_iff (p : Page) :
    ButtonsFollowState p ↔
      (p.state = STATE_START ∨ p.state = STATE_ACQUIRING_AUTHTOKEN ∨
        p.state = STATE_AUTHTOKEN_ACQUIRED) ∧ p.controls = controlsOf p.state := by
  unfold ButtonsFollowState Page.controls controlsOf
  constructor
  · rintro ⟨h, h1, h2, h3⟩
    refine ⟨h, ?_⟩
    simp only [Prod.mk.injEq, true_and]
    refine ⟨?_, ?_, ?_⟩
    · cases hs : p.signin_disabled <;> simp_all
    · cases hs : p.userinfo_disabled <;> simp_all
    · cases hs : p.revoke_disabled <;> simp_all
  · rintro ⟨h, hc⟩
    simp only [Prod.mk.injEq, true_and] at hc
    obtain ⟨h1, h2, h3⟩ := hc
    refine ⟨h, ?_, ?_, ?_⟩
    · rw [h1]; simp
    · rw [h2]; simp
    · rw [h3]; simp

/-- Every handler either leaves `state` and the buttons alone or ends in
`changeState` at one of the three constants. -/
theorem handle_controls (P : Platform) (cfg : AzureConfig) (e : Event) (p : Page) :
    (handle P cfg e p).controls = p.controls ∨
      (handle P cfg e p).controls = controlsOf STATE_START ∨
      (handle P cfg e p).controls = controlsOf STATE_ACQUIRING_AUTHTOKEN ∨
      (handle P cfg e p).controls = controlsOf STATE_AUTHTOKEN_ACQUIRED := by
  have hS : ∀ q : Page, ∀ m : JSValue,
      (changeState P STATE_START (displayOutput P m q)).controls = controlsOf STATE_START := by
    intro q m
    obtain ⟨text, ht⟩ := displayOutput_eq P m q
    rw [ht, changeState_start]
    rfl
  cases e with
  | signinClick r1 r2 =>
    right; right; left
    simp only [handle, interactiveSignIn, changeState_acquiring, Page.controls]
    rfl
  | userinfoClick =>
    left
    simp only [handle, getUserInfo]
    split <;> simp [displayOutput_string, Page.controls]
  | revokeClick =>
    right; left
    simp only [handle, revokeToken, changeState_start, displayOutput_string, Page.controls]
    rfl
  | authFlowDone lastError redirectUrl =>
    simp only [handle, authFlowCallback]
    split
    · right; left
      exact hS _ _
    · split
      · left; simp [Outcome.page, Page.controls]
      · split
        · split
          · right; right; right
            simp only [Outcome.page, exchangeCodeForToken, changeState_acquired,
              displayOutput_string, Page.controls]
            rfl
          · right; left
            exact hS _ _
        · right; left
          exact hS _ _
  | fetchDone result =>
    simp only [handle, fetchSettled]
    split
    · right; left
      exact hS _ _
    · split
      · right; left
        exact hS _ _
      · split
        · right; left
          exact hS _ _
        · rename_i userProfile
          obtain ⟨text, ht⟩ := displayOutput_eq P userProfile
            { p with pendingFetches := p.pendingFetches - 1 }
          obtain ⟨kids, hk⟩ := populateUserInfo_page P userProfile
            (displayOutput P userProfile { p with pendingFetches := p.pendingFetches - 1 })
          split
          · rename_i q hq
            left
            rw [hq] at hk
            simp only [Outcome.page] at hk
            rw [hk, ht]
            simp [Page.controls]
          · right; left
            exact hS _ _

theorem handle_buttonsFollowState (P : Platform) (cfg : AzureConfig) (e : Event) (p : Page)
    (h : ButtonsFollowState p) : ButtonsFollowState (handle P cfg e p) := by
  rw [buttonsFollowState_iff] at h ⊢
  have key : ∀ q : Page, ∀ k : Nat,
      (k = STATE_START ∨ k = STATE_ACQUIRING_AUTHTOKEN ∨ k = STATE_AUTHTOKEN_ACQUIRED) →
      q.controls = controlsOf k →
      (q.state = STATE_START ∨ q.state = STATE_ACQUIRING_AUTHTOKEN ∨
        q.state = STATE_AUTHTOKEN_ACQUIRED) ∧ q.controls = controlsOf q.state := by
    intro q k hk hq
    have hs : q.state = k := by
      have := congrArg Prod.fst hq
      simpa [Page.controls, controlsOf] using this
    rw [hs]; exact ⟨hk, hq⟩
  rcases handle_controls P cfg e p with hc | hc | hc | hc
  · have hs : (handle P cfg e p).state = p.state := by
      have := congrArg Prod.fst hc
      simpa [Page.controls] using this
    rw [hs, hc]; exact h
  · exact key _ _ (Or.inl rfl) hc
  · exact key _ _ (Or.inr (Or.inl rfl)) hc
  · exact key _ _ (Or.inr (Or.inr rfl)) hc

theorem step_buttonsFollowState (P : Platform) (cfg : AzureConfig) (e : Event) (p : Page)
    (h : ButtonsFollowState p) : ButtonsFollowState (step P cfg e p) := by
  unfold step
  split
  · exact handle_buttonsFollowState P cfg e p h
  · exact h

theorem onLoad_eq (P : Platform) (markup : List String) :
    onLoad P markup =
      { state := STATE_START
        access_token := none
        signin_disabled := false
        userinfo_disabled := true
        revoke_disabled := true
        logarea := "Ready to authenticate with Azure DevOps.\n\n" ++
          "Click \"Sign in to Azure DevOps\" to begin the OAuth flow."
        user_info := markup
        console := []
        authFlows := []
        pendingAuthFlows := 0
        fetches := []
        pendingFetches := 0 } := by
  simp [onLoad, changeState_start, displayOutput_string]

theorem onLoad_buttonsFollowState (P : Platform) (markup : List String) :
    ButtonsFollowState (onLoad P markup) := by
  rw [onLoad_eq]
  simp [ButtonsFollowState, STATE_START, STATE_AUTHTOKEN_ACQUIRED]

theorem runHandlers_buttonsFollowState (P : Platform) (cfg : AzureConfig) (es : List Event) :
    ∀ p : Page, ButtonsFollowState p → ButtonsFollowState (runHandlers P cfg es p) := by
  induction es with
  | nil => intro p h; exact h
  | cons e es ih =>
    intro p h
    exact ih _ (handle_buttonsFollowState P cfg e p h)

theorem run_buttonsFollowState (P : Platform) (cfg : AzureConfig) (es : List Event) :
    ∀ p : Page, ButtonsFollowState p → ButtonsFollowState (run P cfg es p) := by
  induction es with
  | nil => intro p h; exact h
  | cons e es ih =>
    intro p h
    exact ih _ (step_buttonsFollowState P cfg e p h)

/-! ## The callback of the web-auth flow, case by case -/

theorem guard_iff_flowFailed (lastError : Option LastError) (redirectUrl : Option String) :
    (lastError.isSome || !(JSValue.toBoolean (redirectUrl.elim .undefined .string))) = true ↔
      flowFailed lastError redirectUrl := by
  unfold flowFailed
  cases redirectUrl with
  | none => simp [JSValue.toBoolean]
  | some url => simp [JSValue.toBoolean]

theorem authFlowCallback_failed (P : Platform) (cfg : AzureConfig)
    (lastError : Option LastError) (redirectUrl : Option String) (p : Page)
    (h : flowFailed lastError redirectUrl) :
    authFlowCallback P cfg lastError redirectUrl p =
      .returned (changeState P STATE_START
        (displayOutput P (.string ("Error: " ++ failureText lastError)) p)) := by
  unfold authFlowCallback
  rw [if_pos ((guard_iff_flowFailed lastError redirectUrl).2 h)]
  rfl

theorem authFlowCallback_parsed (P : Platform) (cfg : AzureConfig) (url : String) (p : Page)
    (hurl : url ≠ "") :
    authFlowCallback P cfg none (some url) p =
      match P.newURL url with
      | none => .threw "Invalid URL" p
      | some searchParams =>
        match searchParamsGet searchParams "code" with
        | some code =>
          if code != "" then
            .returned (exchangeCodeForToken P cfg code (displayOutput P
              (.string "Authorization code received. Exchanging for access token...") p))
          else
            .returned (changeState P STATE_START
              (displayOutput P (.string "Error: No authorization code in redirect URL") p))
        | none =>
          .returned (changeState P STATE_START
            (displayOutput P (.string "Error: No authorization code in redirect URL") p)) := by
  unfold authFlowCallback
  have hg : ¬ (((none : Option LastError).isSome ||
      !(JSValue.toBoolean ((some url).elim .undefined .string))) = true) := by
    rw [guard_iff_flowFailed]
    simp [flowFailed, hurl]
  rw [if_neg hg]
  rfl

theorem not_flowFailed (lastError : Option LastError) (redirectUrl : Option String)
    (h : ¬ flowFailed lastError redirectUrl) :
    lastError = none ∧ ∃ url, redirectUrl = some url ∧ url ≠ "" := by
  unfold flowFailed at h
  simp only [not_or] at h
  obtain ⟨h1, h2, h3⟩ := h
  refine ⟨by cases lastError <;> simp_all, ?_⟩
  cases redirectUrl with
  | none => exact absurd rfl h2
  | some url => exact ⟨url, rfl, fun hu => h3 (by rw [hu])⟩

/-! ## Claims about single handlers -/

theorem error_text_ne_empty (text : String) : "Error: " ++ text ≠ "" := by
  intro h
  have := congrArg String.length h
  simp only [String.length_append] at this
  have h7 : "Error: ".length = 7 := by decide
  have h0 : "".length = 0 := by decide
  omega

/-- C1: after `onLoad` and any finite sequence of button handlers and
asynchronous completions, whether the handlers are called directly
(`runHandlers`) or the events are delivered by the browser (`run`), the three
`disabled` attributes are read off `state` alone: `#signin` is enabled exactly
when `state` is `STATE_START`, `#userinfo` and `#revoke` exactly when it is
`STATE_AUTHTOKEN_ACQUIRED`, and all three are disabled in
`STATE_ACQUIRING_AUTHTOKEN`. -/
theorem C1_buttons_determined_by_state (P : Platform) (cfg : AzureConfig)
    (markup : List String) (es : List Event) :
    (ButtonsFollowState (runHandlers P cfg es (onLoad P markup)) ∧
      ((runHandlers P cfg es (onLoad P markup)).state = STATE_ACQUIRING_AUTHTOKEN →
        (runHandlers P cfg es (onLoad P markup)).signin_disabled = true ∧
        (runHandlers P cfg es (onLoad P markup)).userinfo_disabled = true ∧
        (runHandlers P cfg es (onLoad P markup)).revoke_disabled = true)) ∧
    (ButtonsFollowState (run P cfg es (onLoad P markup)) ∧
      ((run P cfg es (onLoad P markup)).state = STATE_ACQUIRING_AUTHTOKEN →
        (run P cfg es (onLoad P markup)).signin_disabled = true ∧
        (run P cfg es (onLoad P markup)).userinfo_disabled = true ∧
        (run P cfg es (onLoad P markup)).revoke_disabled = true)) := by
  have acquiring : ∀ q : Page, ButtonsFollowState q →
      q.state = STATE_ACQUIRING_AUTHTOKEN →
      q.signin_disabled = true ∧ q.userinfo_disabled = true ∧ q.revoke_disabled = true := by
    intro q hq hs
    obtain ⟨_, h1, h2, h3⟩ := hq
    rw [hs] at h1 h2 h3
    refine ⟨?_, ?_, ?_⟩
    · cases hd : q.signin_disabled
      · exact absurd (h1.1 hd) (by decide)
      · rfl
    · cases hd : q.userinfo_disabled
      · exact absurd (h2.1 hd) (by decide)
      · rfl
    · cases hd : q.revoke_disabled
      · exact absurd (h3.1 hd) (by decide)
      · rfl
  have h1 := runHandlers_buttonsFollowState P cfg es _ (onLoad_buttonsFollowState P markup)
  have h2 := run_buttonsFollowState P cfg es _ (onLoad_buttonsFollowState P markup)
  exact ⟨⟨h1, acquiring _ h1⟩, ⟨h2, acquiring _ h2⟩⟩

/-- C3: when the callback of the web-auth flow is handed a redirect URL that
the `URL` constructor accepts and whose query has no `code` entry, it returns
with `state` equal to `STATE_START` and with a non-empty message, starting
with `Error: `, in the log area; this holds whatever `lastError` is and
whatever the page was. -/
theorem C3_redirect_without_code (P : Platform) (cfg : AzureConfig)
    (lastError : Option LastError) (url : String) (entries : List (String × String))
    (p : Page) (hparse : P.newURL url = some entries)
    (hcode : searchParamsGet entries "code" = none) :
    ∃ q text, authFlowCallback P cfg lastError (some url) p = .returned q ∧
      q.state = STATE_START ∧ q.logarea ≠ "" ∧ q.logarea = "Error: " ++ text := by
  by_cases hf : flowFailed lastError (some url)
  · refine ⟨_, failureText lastError, authFlowCallback_failed P cfg lastError (some url) p hf,
      ?_, ?_, ?_⟩
    · rw [changeState_start]
    · rw [changeState_start, displayOutput_string]
      exact error_text_ne_empty _
    · rw [changeState_start, displayOutput_string]
  · obtain ⟨hl, url', hu, hne⟩ := not_flowFailed lastError (some url) hf
    cases hu
    subst hl
    refine ⟨changeState P STATE_START
      (displayOutput P (.string "Error: No authorization code in redirect URL") p),
      "No authorization code in redirect URL", ?_, ?_, ?_, ?_⟩
    · rw [authFlowCallback_parsed P cfg url p hne, hparse]
      simp only [hcode]
    · rw [changeState_start]
    · rw [changeState_start, displayOutput_string]
      show ("Error: No authorization code in redirect URL" : String) ≠ ""
      decide
    · rw [changeState_start, displayOutput_string]
      rfl

/-- Witness for C3 on the sample platform: a redirect that carries only a
`state` entry. -/
theorem C3_redirect_without_code_witness :
    ∃ q text, authFlowCallback samplePlatform azureConfig none
        (some "https://ext/cb?state=12za") (onLoad samplePlatform []) = .returned q ∧
      q.state = STATE_START ∧ q.logarea ≠ "" ∧ q.logarea = "Error: " ++ text :=
  C3_redirect_without_code samplePlatform azureConfig none "https://ext/cb?state=12za"
    [("state", "12za")] (onLoad samplePlatform []) (by decide) (by decide)

/-- C4: when the web-auth flow completes with `chrome.runtime.lastError` set,
or with a redirect URL that is `undefined` or empty, the callback returns the
page with a message starting with `Error: ` in the log area, `state` equal to
`STATE_START` and the buttons of `STATE_START`, everything else untouched; the
outcome is the same on every platform, so neither the `URL` constructor nor
`exchangeCodeForToken` takes part in it, and `state` is not
`STATE_AUTHTOKEN_ACQUIRED`. -/
theorem C4_flow_failure_resets (P : Platform) (cfg : AzureConfig)
    (lastError : Option LastError) (redirectUrl : Option String) (p : Page)
    (h : lastError.isSome = true ∨ redirectUrl = none ∨ redirectUrl = some "") :
    (∃ text, authFlowCallback P cfg lastError redirectUrl p =
      .returned { p with state := STATE_START, signin_disabled := false,
                         userinfo_disabled := true, revoke_disabled := true,
                         logarea := "Error: " ++ text }) ∧
    (authFlowCallback P cfg lastError redirectUrl p).page.state ≠ STATE_AUTHTOKEN_ACQUIRED ∧
    (∀ P' : Platform, ∀ cfg' : AzureConfig,
      authFlowCallback P' cfg' lastError redirectUrl p =
        authFlowCallback P cfg lastError redirectUrl p) := by
  have hf : flowFailed lastError redirectUrl := h
  refine ⟨⟨failureText lastError, ?_⟩, ?_, ?_⟩
  · rw [authFlowCallback_failed P cfg lastError redirectUrl p hf, changeState_start,
      displayOutput_string]
  · rw [authFlowCallback_failed P cfg lastError redirectUrl p hf, changeState_start]
    simp [Outcome.page, STATE_START, STATE_AUTHTOKEN_ACQUIRED]
  · intro P' cfg'
    rw [authFlowCallback_failed P cfg lastError redirectUrl p hf,
      authFlowCallback_failed P' cfg' lastError redirectUrl p hf, changeState_start,
      changeState_start, displayOutput_string, displayOutput_string]

/-- Witness for C4: the user closes the popup, so `lastError` is set and no
redirect URL arrives. -/
theorem C4_flow_failure_resets_witness :
    (∃ text, authFlowCallback samplePlatform azureConfig
        (some { message := some "The user did not approve access." }) none
        (interactiveSignIn samplePlatform azureConfig [1, 2] [3] (onLoad samplePlatform [])) =
      .returned { (interactiveSignIn samplePlatform azureConfig [1, 2] [3]
                    (onLoad samplePlatform [])) with
                  state := STATE_START, signin_disabled := false,
                  userinfo_disabled := true, revoke_disabled := true,
                  logarea := "Error: " ++ text }) ∧
    (authFlowCallback samplePlatform azureConfig
        (some { message := some "The user did not approve access." }) none
        (interactiveSignIn samplePlatform azureConfig [1, 2] [3]
          (onLoad samplePlatform []))).page.state ≠ STATE_AUTHTOKEN_ACQUIRED ∧
    (∀ P' : Platform, ∀ cfg' : AzureConfig,
      authFlowCallback P' cfg' (some { message := some "The user did not approve access." })
          none (interactiveSignIn samplePlatform azureConfig [1, 2] [3]
            (onLoad samplePlatform [])) =
        authFlowCallback samplePlatform azureConfig
          (some { message := some "The user did not approve access." }) none
          (interactiveSignIn samplePlatform azureConfig [1, 2] [3]
            (onLoad samplePlatform []))) :=
  C4_flow_failure_resets samplePlatform azureConfig
    (some { message := some "The user did not approve access." }) none
    (interactiveSignIn samplePlatform azureConfig [1, 2] [3] (onLoad samplePlatform []))
    (Or.inl rfl)

/-- C6: from any page whose `state` is `STATE_AUTHTOKEN_ACQUIRED`, whatever its
access token and whatever the profile area shows, `revokeToken` leaves `state`
equal to `STATE_START`, the profile area without children and `access_token`
equal to `null`. -/
theorem C6_revoke_resets (P : Platform) (p : Page)
    (_h : p.state = STATE_AUTHTOKEN_ACQUIRED) :
    (revokeToken P p).state = STATE_START ∧ (revokeToken P p).user_info = [] ∧
      (revokeToken P p).access_token = none := by
  simp [revokeToken, changeState_start, displayOutput_string]

/-- Witness for C6: a signed-in page holding a token and a rendered profile. -/
theorem C6_revoke_resets_witness :
    (revokeToken samplePlatform
        { onLoad samplePlatform [] with
          state := STATE_AUTHTOKEN_ACQUIRED, access_token := some "token",
          signin_disabled := true, userinfo_disabled := false, revoke_disabled := false,
          user_info := ["<b>Display Name:</b> Ada"] }).state = STATE_START ∧
      (revokeToken samplePlatform
        { onLoad samplePlatform [] with
          state := STATE_AUTHTOKEN_ACQUIRED, access_token := some "token",
          signin_disabled := true, userinfo_disabled := false, revoke_disabled := false,
          user_info := ["<b>Display Name:</b> Ada"] }).user_info = [] ∧
      (revokeToken samplePlatform
        { onLoad samplePlatform [] with
          state := STATE_AUTHTOKEN_ACQUIRED, access_token := some "token",
          signin_disabled := true, userinfo_disabled := false, revoke_disabled := false,
          user_info := ["<b>Display Name:</b> Ada"] }).access_token = none :=
  C6_revoke_resets samplePlatform _ rfl

theorem getProp_object (props : List (String × JSValue)) (key : String) :
    ∃ v, (JSValue.object props).getProp key = some v := by
  simp only [JSValue.getProp]
  cases props.reverse.find? (fun kv => kv.1 == key) <;> exact ⟨_, rfl⟩

theorem toStr_eq_text (v : JSValue) (h : v.printable) (ht : v.toBoolean = true) :
    v.toStr = some v.text := by
  unfold JSValue.text
  cases hs : v.toStr with
  | none => exact absurd hs (h ht)
  | some t => rfl

theorem appendField_printable (label : String) (v : JSValue) (p : Page) (h : v.printable) :
    appendField label v p =
      some { p with user_info := p.user_info ++
        (if v.toBoolean then [label ++ v.text] else []) } := by
  unfold appendField
  cases ht : v.toBoolean with
  | false => simp
  | true => simp [toStr_eq_text v h ht]

theorem appendField_unprintable (label : String) (v : JSValue) (p : Page) (h : ¬ v.printable) :
    appendField label v p = none := by
  unfold JSValue.printable at h
  unfold appendField
  cases ht : v.toBoolean with
  | false => exact absurd (fun hf => by rw [ht] at hf; cases hf) h
  | true =>
    cases hs : v.toStr with
    | none => simp
    | some t => exact absurd (fun _ => by simp [hs]) h

/-- The fields of `presentFields`, one property after the other. -/
theorem presentFields_eq (userProfile : JSValue) :
    presentFields userProfile =
      (match userProfile.getProp "displayName" with
        | some v => if v.toBoolean then ["<b>Display Name:</b> " ++ v.text] else []
        | none => []) ++
      (match userProfile.getProp "emailAddress" with
        | some v => if v.toBoolean then ["<b>Email:</b> " ++ v.text] else []
        | none => []) ++
      (match userProfile.getProp "publicAlias" with
        | some v => if v.toBoolean then ["<b>Public Alias:</b> " ++ v.text] else []
        | none => []) := by
  unfold presentFields
  simp only [List.filterMap_cons, List.filterMap_nil]
  cases userProfile.getProp "displayName" with
  | none =>
    cases userProfile.getProp "emailAddress" with
    | none =>
      cases userProfile.getProp "publicAlias" with
      | none => rfl
      | some a => cases ha : a.toBoolean <;> simp [ha]
    | some e =>
      cases userProfile.getProp "publicAlias" with
      | none => cases he : e.toBoolean <;> simp [he]
      | some a => cases he : e.toBoolean <;> cases ha : a.toBoolean <;> simp [he, ha]
  | some d =>
    cases userProfile.getProp "emailAddress" with
    | none =>
      cases userProfile.getProp "publicAlias" with
      | none => cases hd : d.toBoolean <;> simp [hd]
      | some a => cases hd : d.toBoolean <;> cases ha : a.toBoolean <;> simp [hd, ha]
    | some e =>
      cases userProfile.getProp "publicAlias" with
      | none => cases hd : d.toBoolean <;> cases he : e.toBoolean <;> simp [hd, he]
      | some a =>
        cases hd : d.toBoolean <;> cases he : e.toBoolean <;> cases ha : a.toBoolean <;>
          simp [hd, he, ha]

/-- What `populateUserInfo` does on an object whose three values can be written
as text: it returns, and the profile area holds the fields of
`presentFields`. -/
theorem populateUserInfo_object (P : Platform) (props : List (String × JSValue)) (p : Page)
    (h : printableProfile (.object props)) :
    populateUserInfo P (.object props) p =
      .returned { p with user_info := presentFields (.object props) } := by
  rw [presentFields_eq]
  obtain ⟨d, hd⟩ := getProp_object props "displayName"
  obtain ⟨e, he⟩ := getProp_object props "emailAddress"
  obtain ⟨a, ha⟩ := getProp_object props "publicAlias"
  have pd : d.printable := h "displayName" (by simp) d hd
  have pe : e.printable := h "emailAddress" (by simp) e he
  have pa : a.printable := h "publicAlias" (by simp) a ha
  simp only [populateUserInfo, hd, he, ha, appendField_printable _ _ _ pd,
    appendField_printable _ _ _ pe, appendField_printable _ _ _ pa, List.nil_append,
    List.append_assoc]

/-- What `populateUserInfo` does on an object one of whose three values cannot
be written as text: it throws the `TypeError` of the conversion, with nothing
but the profile area changed. -/
theorem populateUserInfo_unprintable (P : Platform) (props : List (String × JSValue))
    (p : Page) (h : ¬ printableProfile (.object props)) :
    ∃ kids, populateUserInfo P (.object props) p =
      .threw P.convertMessage { p with user_info := kids } := by
  obtain ⟨d, hd⟩ := getProp_object props "displayName"
  obtain ⟨e, he⟩ := getProp_object props "emailAddress"
  obtain ⟨a, ha⟩ := getProp_object props "publicAlias"
  have key : populateUserInfo P (.object props) p =
      .threw P.convertMessage (populateUserInfo P (.object props) p).page := by
    by_cases pd : d.printable
    · by_cases pe : e.printable
      · have pa : ¬ a.printable := by
          intro pa
          apply h
          intro key hk v hv
          simp only [List.mem_cons, List.mem_singleton, List.not_mem_nil, or_false] at hk
          rcases hk with rfl | rfl | rfl
          · rw [hd] at hv; cases hv; exact pd
          · rw [he] at hv; cases hv; exact pe
          · rw [ha] at hv; cases hv; exact pa
        simp only [populateUserInfo, hd, he, ha, appendField_printable _ _ _ pd,
          appendField_printable _ _ _ pe, appendField_unprintable _ _ _ pa, Outcome.page]
      · simp only [populateUserInfo, hd, he, appendField_printable _ _ _ pd,
          appendField_unprintable _ _ _ pe, Outcome.page]
    · simp only [populateUserInfo, hd, appendField_unprintable _ _ _ pd, Outcome.page]
  obtain ⟨kids, hk⟩ := populateUserInfo_page P (.object props) p
  exact ⟨kids, by rw [← hk]; exact key⟩

theorem printable_string (s : String) : (JSValue.string s).printable := by
  intro _ h; cases h

theorem printable_number (text : String) : (JSValue.number text).printable := by
  intro _ h; cases h

theorem printable_boolean (b : Bool) : (JSValue.boolean b).printable := by
  intro _ h; cases h

theorem printable_plain_object (props : List (String × JSValue))
    (h : ∀ kv ∈ props, kv.1 ≠ "toString") : (JSValue.object props).printable := by
  intro _ hs
  have : props.any (fun kv => kv.1 == "toString") = false := by
    rw [List.any_eq_false]
    intro kv hkv
    simpa using h kv hkv
  simp [JSValue.toStr, this] at hs

theorem printableProfile_ada :
    printableProfile
      (.object [("displayName", .string "Ada"), ("emailAddress", .string "ada@x.com")]) := by
  intro key hk v hv
  simp only [List.mem_cons, List.mem_singleton, List.not_mem_nil, or_false] at hk
  rcases hk with rfl | rfl | rfl <;> cases hv
  · exact printable_string _
  · exact printable_string _
  · intro h; cases h

theorem printableProfile_empty : printableProfile (.object []) := by
  intro key hk v hv
  cases hv
  intro h; cases h

/-- C9, as the code has it: on every profile object whose values of
`displayName`, `emailAddress` and `publicAlias` can be written as text where
they pass the test `if (userProfile.x)` (every string, number and boolean can,
and so can an object without a member of its own called `toString`),
`populateUserInfo` returns and replaces the children of the profile area,
whatever they were, by one labelled field for each of the three whose value
passes that test (so a property that is missing, and one that is there with an
empty text, `0`, `false` or `null`, are both left out), in that order, under
the labels `Display Name`, `Email`, `Public Alias`; a profile with a name `Ada`
and an e-mail `ada@x.com` gives exactly these two fields, name first, and no
alias field; the empty object gives no field; and on a profile object with a
value that passes the test and cannot be written as text it throws the
`TypeError` of the conversion. -/
theorem C9_profile_fields (P : Platform) (p : Page) (props : List (String × JSValue))
    (h : printableProfile (.object props)) :
    populateUserInfo P (.object props) p =
      .returned { p with user_info := presentFields (.object props) } ∧
    presentFields (.object props) =
      (match (JSValue.object props).getProp "displayName" with
        | some v => if v.toBoolean then ["<b>Display Name:</b> " ++ v.text] else []
        | none => []) ++
      (match (JSValue.object props).getProp "emailAddress" with
        | some v => if v.toBoolean then ["<b>Email:</b> " ++ v.text] else []
        | none => []) ++
      (match (JSValue.object props).getProp "publicAlias" with
        | some v => if v.toBoolean then ["<b>Public Alias:</b> " ++ v.text] else []
        | none => []) ∧
    (∀ key ∈ ["displayName", "emailAddress", "publicAlias"],
      ∀ v, (JSValue.object props).getProp key = some v → v.toBoolean = true →
        v.toStr = some v.text) ∧
    (∀ s : String, (JSValue.string s).printable) ∧
    (∀ text : String, (JSValue.number text).printable) ∧
    (∀ b : Bool, (JSValue.boolean b).printable) ∧
    (∀ members : List (String × JSValue), (∀ kv ∈ members, kv.1 ≠ "toString") →
      (JSValue.object members).printable) ∧
    populateUserInfo P
        (.object [("displayName", .string "Ada"), ("emailAddress", .string "ada@x.com")]) p =
      .returned { p with
        user_info := ["<b>Display Name:</b> Ada", "<b>Email:</b> ada@x.com"] } ∧
    populateUserInfo P (.object []) p = .returned { p with user_info := [] } ∧
    (∀ other : List (String × JSValue), ¬ printableProfile (.object other) →
      ∃ kids, populateUserInfo P (.object other) p =
        .threw P.convertMessage { p with user_info := kids }) := by
  refine ⟨populateUserInfo_object P props p h, presentFields_eq (.object props),
    fun key hk v hv ht => toStr_eq_text v (h key hk v hv) ht,
    printable_string, printable_number, printable_boolean, printable_plain_object, ?_, ?_,
    fun other ho => populateUserInfo_unprintable P other p ho⟩
  · rw [populateUserInfo_object P _ p printableProfile_ada]
    rfl
  · rw [populateUserInfo_object P _ p printableProfile_empty]
    rfl

/-- Witness for C9: the profile of the scenario, drawn over an older field. -/
theorem C9_profile_fields_witness :
    printableProfile
      (.object [("displayName", .string "Ada"), ("emailAddress", .string "ada@x.com")]) ∧
    populateUserInfo samplePlatform
        (.object [("displayName", .string "Ada"), ("emailAddress", .string "ada@x.com")])
        { onLoad samplePlatform [] with user_info := ["<b>Display Name:</b> Bob"] } =
      .returned { onLoad samplePlatform [] with
        user_info := ["<b>Display Name:</b> Ada", "<b>Email:</b> ada@x.com"] } :=
  ⟨printableProfile_ada,
    (C9_profile_fields samplePlatform
      { onLoad samplePlatform [] with user_info := ["<b>Display Name:</b> Bob"] }
      [("displayName", .string "Ada"), ("emailAddress", .string "ada@x.com")]
      printableProfile_ada).2.2.2.2.2.2.2.1⟩

/-- Counterexample to C9 as stated.  A profile that has the property
`displayName`, with the empty text as its value, gets no field for it; and on a
profile whose `displayName` is an object with a member `toString` the function
throws instead of showing a field. -/
theorem C9_present_field_not_shown :
    (JSValue.object [("displayName", .string "")]).getProp "displayName" =
      some (.string "") ∧
    populateUserInfo samplePlatform (.object [("displayName", .string "")])
      (onLoad samplePlatform []) = .returned (onLoad samplePlatform []) ∧
    (JSValue.object [("displayName", .object [("toString", .number "1")])]).getProp
      "displayName" = some (.object [("toString", .number "1")]) ∧
    populateUserInfo samplePlatform
      (.object [("displayName", .object [("toString", .number "1")])])
      (onLoad samplePlatform []) =
        .threw "Cannot convert object to primitive value" (onLoad samplePlatform []) := by
  refine ⟨rfl, by decide, rfl, by decide⟩

/-! ## Pages the browser can bring about -/

theorem interactiveSignIn_eq (P : Platform) (cfg : AzureConfig) (r1 r2 : List (Fin 36))
    (p : Page) :
    interactiveSignIn P cfg r1 r2 p =
      { p with state := STATE_ACQUIRING_AUTHTOKEN, signin_disabled := true,
               userinfo_disabled := true, revoke_disabled := true,
               logarea := "Acquiring token...",
               console := p.console ++ ["Starting Azure DevOps authentication..."],
               authFlows := p.authFlows ++
                 [authUrl cfg P.getRedirectURL (generateRandomState r1 r2)],
               pendingAuthFlows := p.pendingAuthFlows + 1 } := by
  simp only [interactiveSignIn, changeState_acquiring]

theorem getUserInfo_no_token (P : Platform) (cfg : AzureConfig) (p : Page)
    (h : p.access_token = none) :
    getUserInfo P cfg p =
      { p with logarea := "No access token available. Please sign in first." } := by
  simp [getUserInfo, h, JSValue.toBoolean, displayOutput_string]

theorem revokeToken_eq (P : Platform) (p : Page) :
    revokeToken P p =
      { p with state := STATE_START, access_token := none, signin_disabled := false,
               userinfo_disabled := true, revoke_disabled := true, user_info := [],
               logarea := "Token revoked. You have been signed out." } := by
  simp only [revokeToken, changeState_start, displayOutput_string]

theorem exchangeCodeForToken_eq (P : Platform) (cfg : AzureConfig) (code : String) (p : Page) :
    ∃ text, exchangeCodeForToken P cfg code p =
      { p with state := STATE_AUTHTOKEN_ACQUIRED, signin_disabled := true,
               userinfo_disabled := false, revoke_disabled := false, logarea := text } := by
  refine ⟨(exchangeCodeForToken P cfg code p).logarea, ?_⟩
  simp only [exchangeCodeForToken, changeState_acquired, displayOutput_string]

/-- The three ways the callback of the web-auth flow can end, with what decides
between them. -/
theorem authFlowCallback_cases (P : Platform) (cfg : AzureConfig)
    (lastError : Option LastError) (redirectUrl : Option String) (p : Page) :
    (∃ text, (authFlowCallback P cfg lastError redirectUrl p).page =
        { p with state := STATE_START, signin_disabled := false, userinfo_disabled := true,
                 revoke_disabled := true, logarea := text } ∧
      (lastError.isSome = true ∨ redirectUrl = none ∨ redirectUrl = some "" ∨
        ∃ url entries, redirectUrl = some url ∧ P.newURL url = some entries ∧
          (searchParamsGet entries "code" = none ∨
            searchParamsGet entries "code" = some ""))) ∨
    ((authFlowCallback P cfg lastError redirectUrl p).page = p ∧
      ∃ url, redirectUrl = some url ∧ P.newURL url = none) ∨
    (∃ text, (authFlowCallback P cfg lastError redirectUrl p).page =
        { p with state := STATE_AUTHTOKEN_ACQUIRED, signin_disabled := true,
                 userinfo_disabled := false, revoke_disabled := false, logarea := text } ∧
      ∃ url entries code, lastError = none ∧ redirectUrl = some url ∧
        P.newURL url = some entries ∧ searchParamsGet entries "code" = some code ∧
        code ≠ "") := by
  by_cases hf : flowFailed lastError redirectUrl
  · left
    refine ⟨"Error: " ++ failureText lastError, ?_, ?_⟩
    · rw [authFlowCallback_failed P cfg lastError redirectUrl p hf, changeState_start,
        displayOutput_string]
      rfl
    · rcases hf with h | h | h
      · exact Or.inl h
      · exact Or.inr (Or.inl h)
      · exact Or.inr (Or.inr (Or.inl h))
  · obtain ⟨hl, url, hu, hne⟩ := not_flowFailed lastError redirectUrl hf
    subst hl hu
    have hcb := authFlowCallback_parsed P cfg url p hne
    cases hparse : P.newURL url with
    | none =>
      right; left
      rw [hparse] at hcb
      exact ⟨by rw [hcb]; rfl, url, rfl, hparse⟩
    | some entries =>
      rw [hparse] at hcb
      cases hcode : searchParamsGet entries "code" with
      | none =>
        left
        simp only [hcode] at hcb
        refine ⟨"Error: No authorization code in redirect URL", ?_,
          Or.inr (Or.inr (Or.inr ⟨url, entries, rfl, hparse, Or.inl hcode⟩))⟩
        rw [hcb, changeState_start, displayOutput_string]
        rfl
      | some code =>
        simp only [hcode] at hcb
        by_cases hc : code = ""
        · left
          subst hc
          refine ⟨"Error: No authorization code in redirect URL", ?_,
            Or.inr (Or.inr (Or.inr ⟨url, entries, rfl, hparse, Or.inr hcode⟩))⟩
          rw [hcb, changeState_start, displayOutput_string]
          rfl
        · right; right
          obtain ⟨text, ht⟩ := exchangeCodeForToken_eq P cfg code (displayOutput P
            (.string "Authorization code received. Exchanging for access token...") p)
          refine ⟨text, ?_, url, entries, code, rfl, rfl, hparse, hcode, hc⟩
          have hb : (code != "") = true := by simpa using hc
          rw [hcb, if_pos hb]
          exact ht

theorem onLoad_settled (P : Platform) (markup : List String) : Settled (onLoad P markup) := by
  refine ⟨onLoad_buttonsFollowState P markup, ?_, ?_, Or.inl ?_⟩ <;> rw [onLoad_eq]

theorem step_settled (P : Platform) (cfg : AzureConfig) (e : Event) (p : Page)
    (h : Settled p) : Settled (step P cfg e p) := by
  have hb := step_buttonsFollowState P cfg e p h.1
  obtain ⟨⟨_, hsign, huser, hrevoke⟩, htoken, hfetch, hflow⟩ := h
  refine ⟨hb, ?_⟩
  unfold step
  by_cases hd : e.deliverable p = true
  · rw [if_pos hd]
    cases e with
    | signinClick r1 r2 =>
      have hs : p.state = STATE_START := by
        apply hsign.1
        simpa [Event.deliverable, Event.button, Button.disabled] using hd
      have h0 : p.pendingAuthFlows = 0 := by
        rcases hflow with h0 | ⟨_, h1⟩
        · exact h0
        · rw [hs] at h1; exact absurd h1 (by decide)
      rw [show handle P cfg (.signinClick r1 r2) p = interactiveSignIn P cfg r1 r2 p from rfl,
        interactiveSignIn_eq]
      exact ⟨htoken, hfetch, Or.inr ⟨by show p.pendingAuthFlows + 1 = 1; omega, rfl⟩⟩
    | userinfoClick =>
      rw [show handle P cfg .userinfoClick p = getUserInfo P cfg p from rfl,
        getUserInfo_no_token P cfg p htoken]
      exact ⟨htoken, hfetch, hflow⟩
    | revokeClick =>
      have hs : p.state = STATE_AUTHTOKEN_ACQUIRED := by
        apply hrevoke.1
        simpa [Event.deliverable, Event.button, Button.disabled] using hd
      have h0 : p.pendingAuthFlows = 0 := by
        rcases hflow with h0 | ⟨_, h1⟩
        · exact h0
        · rw [hs] at h1; exact absurd h1 (by decide)
      rw [show handle P cfg .revokeClick p = revokeToken P p from rfl, revokeToken_eq]
      exact ⟨rfl, hfetch, Or.inl h0⟩
    | authFlowDone lastError redirectUrl =>
      have hpos : 0 < p.pendingAuthFlows := by
        simpa [Event.deliverable] using hd
      have h1 : p.pendingAuthFlows = 1 := by
        rcases hflow with h0 | ⟨h1, _⟩
        · omega
        · exact h1
      rw [show handle P cfg (.authFlowDone lastError redirectUrl) p =
        (authFlowCallback P cfg lastError redirectUrl
          { p with pendingAuthFlows := p.pendingAuthFlows - 1 }).page from rfl]
      rcases authFlowCallback_cases P cfg lastError redirectUrl
        { p with pendingAuthFlows := p.pendingAuthFlows - 1 } with
        ⟨text, hq, _⟩ | ⟨hq, _⟩ | ⟨text, hq, _⟩ <;> rw [hq] <;>
        exact ⟨htoken, hfetch, Or.inl (by show p.pendingAuthFlows - 1 = 0; omega)⟩
    | fetchDone result =>
      exfalso
      simp [Event.deliverable, hfetch] at hd
  · rw [if_neg hd]
    exact ⟨htoken, hfetch, hflow⟩

theorem run_settled (P : Platform) (cfg : AzureConfig) (es : List Event) :
    ∀ p : Page, Settled p → Settled (run P cfg es p) := by
  induction es with
  | nil => intro p h; exact h
  | cons e es ih =>
    intro p h
    exact ih _ (step_settled P cfg e p h)

theorem step_allowed (P : Platform) (cfg : AzureConfig) (e : Event) (p : Page)
    (h : Settled p) : AllowedStep P p e (step P cfg e p) := by
  obtain ⟨⟨_, hsign, huser, hrevoke⟩, htoken, hfetch, hflow⟩ := h
  unfold step
  by_cases hd : e.deliverable p = true
  · rw [if_pos hd]
    cases e with
    | signinClick r1 r2 =>
      have hs : p.state = STATE_START := by
        apply hsign.1
        simpa [Event.deliverable, Event.button, Button.disabled] using hd
      right; left
      refine ⟨hs, ?_, r1, r2, rfl⟩
      rw [show handle P cfg (.signinClick r1 r2) p = interactiveSignIn P cfg r1 r2 p from rfl,
        interactiveSignIn_eq]
    | userinfoClick =>
      left
      rw [show handle P cfg .userinfoClick p = getUserInfo P cfg p from rfl,
        getUserInfo_no_token P cfg p htoken]
    | revokeClick =>
      have hs : p.state = STATE_AUTHTOKEN_ACQUIRED := by
        apply hrevoke.1
        simpa [Event.deliverable, Event.button, Button.disabled] using hd
      right; right; right; right
      refine ⟨hs, ?_, rfl⟩
      rw [show handle P cfg .revokeClick p = revokeToken P p from rfl, revokeToken_eq]
    | authFlowDone lastError redirectUrl =>
      have hpos : 0 < p.pendingAuthFlows := by
        simpa [Event.deliverable] using hd
      have hs : p.state = STATE_ACQUIRING_AUTHTOKEN := by
        rcases hflow with h0 | ⟨_, hs⟩
        · omega
        · exact hs
      rw [show handle P cfg (.authFlowDone lastError redirectUrl) p =
        (authFlowCallback P cfg lastError redirectUrl
          { p with pendingAuthFlows := p.pendingAuthFlows - 1 }).page from rfl]
      rcases authFlowCallback_cases P cfg lastError redirectUrl
        { p with pendingAuthFlows := p.pendingAuthFlows - 1 } with
        ⟨text, hq, hwhy⟩ | ⟨hq, _⟩ | ⟨text, hq, url, entries, code, hl, hu, hp, hc, hne⟩
      · right; right; right; left
        rw [hq]
        exact ⟨hs, rfl, lastError, redirectUrl, rfl, hwhy⟩
      · left
        rw [hq]
      · right; right; left
        rw [hq]
        subst hl hu
        exact ⟨hs, rfl, url, entries, code, rfl, hp, hc, hne⟩
    | fetchDone result =>
      exfalso
      simp [Event.deliverable, hfetch] at hd
  · rw [if_neg hd]
    left; rfl

theorem deliverable_signin (p : Page) (r1 r2 : List (Fin 36)) :
    (Event.signinClick r1 r2).deliverable p = !p.signin_disabled := rfl

theorem deliverable_revoke (p : Page) :
    Event.revokeClick.deliverable p = !p.revoke_disabled := rfl

theorem deliverable_authFlowDone (p : Page) (lastError : Option LastError)
    (redirectUrl : Option String) :
    (Event.authFlowDone lastError redirectUrl).deliverable p =
      decide (0 < p.pendingAuthFlows) := rfl

theorem step_click_disabled (P : Platform) (cfg : AzureConfig) (e : Event) (p : Page)
    (b : Button) (hb : e.button = some b) (hd : b.disabled p = true) :
    step P cfg e p = p := by
  unfold step
  have : e.deliverable p = false := by
    cases e <;> simp_all [Event.button, Event.deliverable]
  rw [this]
  rfl

/-- C2: on every page reached from `onLoad` by events the browser delivers, the
next event either leaves `state` as it is or makes one of four changes:
`STATE_START` to `STATE_ACQUIRING_AUTHTOKEN` by a click on `#signin`;
`STATE_ACQUIRING_AUTHTOKEN` to `STATE_AUTHTOKEN_ACQUIRED` by the callback of the
web-auth flow on a redirect whose `code` is a non-empty text;
`STATE_ACQUIRING_AUTHTOKEN` to `STATE_START` by that callback on an error, a
missing or empty redirect URL, or a missing or empty `code`;
`STATE_AUTHTOKEN_ACQUIRED` to `STATE_START` by a click on `#revoke`.  A click on
a button that carries `disabled` changes nothing at all.  Each of the four
changes does happen when its event arrives. -/
theorem C2_only_four_transitions (P : Platform) (cfg : AzureConfig) (markup : List String)
    (es : List Event) (e : Event) :
    AllowedStep P (run P cfg es (onLoad P markup)) e
      (step P cfg e (run P cfg es (onLoad P markup))) ∧
    (∀ b : Button, e.button = some b → b.disabled (run P cfg es (onLoad P markup)) = true →
      step P cfg e (run P cfg es (onLoad P markup)) = run P cfg es (onLoad P markup)) ∧
    (∀ r1 r2, (run P cfg es (onLoad P markup)).state = STATE_START →
      (step P cfg (.signinClick r1 r2) (run P cfg es (onLoad P markup))).state =
        STATE_ACQUIRING_AUTHTOKEN) ∧
    ((run P cfg es (onLoad P markup)).state = STATE_AUTHTOKEN_ACQUIRED →
      (step P cfg .revokeClick (run P cfg es (onLoad P markup))).state = STATE_START) ∧
    (∀ lastError redirectUrl, 0 < (run P cfg es (onLoad P markup)).pendingAuthFlows →
      (lastError.isSome = true ∨ redirectUrl = none ∨ redirectUrl = some "") →
      (step P cfg (.authFlowDone lastError redirectUrl)
        (run P cfg es (onLoad P markup))).state = STATE_START) ∧
    (∀ url entries code, 0 < (run P cfg es (onLoad P markup)).pendingAuthFlows →
      url ≠ "" → P.newURL url = some entries →
      searchParamsGet entries "code" = some code → code ≠ "" →
      (step P cfg (.authFlowDone none (some url))
        (run P cfg es (onLoad P markup))).state = STATE_AUTHTOKEN_ACQUIRED) := by
  have hset := run_settled P cfg es _ (onLoad_settled P markup)
  refine ⟨step_allowed P cfg e _ hset, fun b hb hd => step_click_disabled P cfg e _ b hb hd,
    ?_, ?_, ?_, ?_⟩
  · intro r1 r2 hs
    have hd : (Event.signinClick r1 r2).deliverable (run P cfg es (onLoad P markup)) = true := by
      rw [deliverable_signin, hset.1.2.1.2 hs]; rfl
    unfold step
    rw [if_pos hd, show handle P cfg (.signinClick r1 r2) (run P cfg es (onLoad P markup)) =
      interactiveSignIn P cfg r1 r2 (run P cfg es (onLoad P markup)) from rfl,
      interactiveSignIn_eq]
  · intro hs
    have hd : Event.revokeClick.deliverable (run P cfg es (onLoad P markup)) = true := by
      rw [deliverable_revoke, hset.1.2.2.2.2 hs]; rfl
    unfold step
    rw [if_pos hd, show handle P cfg .revokeClick (run P cfg es (onLoad P markup)) =
      revokeToken P (run P cfg es (onLoad P markup)) from rfl, revokeToken_eq]
  · intro lastError redirectUrl hpos hfail
    have hd : (Event.authFlowDone lastError redirectUrl).deliverable
        (run P cfg es (onLoad P markup)) = true := by
      rw [deliverable_authFlowDone]; exact decide_eq_true hpos
    unfold step
    rw [if_pos hd, show handle P cfg (.authFlowDone lastError redirectUrl)
        (run P cfg es (onLoad P markup)) =
      (authFlowCallback P cfg lastError redirectUrl
        { run P cfg es (onLoad P markup) with
          pendingAuthFlows := (run P cfg es (onLoad P markup)).pendingAuthFlows - 1 }).page
      from rfl, authFlowCallback_failed P cfg lastError redirectUrl _ hfail, changeState_start]
    rfl
  · intro url entries code hpos hne hparse hcode hc
    have hd : (Event.authFlowDone none (some url)).deliverable
        (run P cfg es (onLoad P markup)) = true := by
      rw [deliverable_authFlowDone]; exact decide_eq_true hpos
    have hb : (code != "") = true := by simpa using hc
    unfold step
    rw [if_pos hd, show handle P cfg (.authFlowDone none (some url))
        (run P cfg es (onLoad P markup)) =
      (authFlowCallback P cfg none (some url)
        { run P cfg es (onLoad P markup) with
          pendingAuthFlows := (run P cfg es (onLoad P markup)).pendingAuthFlows - 1 }).page
      from rfl, authFlowCallback_parsed P cfg url _ hne, hparse]
    simp only [hcode, hb, if_true, Outcome.page, exchangeCodeForToken, changeState_acquired]

/-- C5: on every page reached from `onLoad` by events the browser delivers and
on which `state` is not `STATE_AUTHTOKEN_ACQUIRED`, `getUserInfo` hands no
request to `fetch` and leaves `state` and `access_token` as they were; the one
thing it changes is the text of the log area. -/
theorem C5_getUserInfo_without_token (P : Platform) (cfg : AzureConfig)
    (markup : List String) (es : List Event)
    (_h : (run P cfg es (onLoad P markup)).state ≠ STATE_AUTHTOKEN_ACQUIRED) :
    (getUserInfo P cfg (run P cfg es (onLoad P markup))).fetches =
        (run P cfg es (onLoad P markup)).fetches ∧
      (getUserInfo P cfg (run P cfg es (onLoad P markup))).pendingFetches =
        (run P cfg es (onLoad P markup)).pendingFetches ∧
      (getUserInfo P cfg (run P cfg es (onLoad P markup))).state =
        (run P cfg es (onLoad P markup)).state ∧
      (getUserInfo P cfg (run P cfg es (onLoad P markup))).access_token =
        (run P cfg es (onLoad P markup)).access_token ∧
      getUserInfo P cfg (run P cfg es (onLoad P markup)) =
        { run P cfg es (onLoad P markup) with
          logarea := "No access token available. Please sign in first." } := by
  have hset := run_settled P cfg es _ (onLoad_settled P markup)
  have e := getUserInfo_no_token P cfg _ hset.2.1
  refine ⟨?_, ?_, ?_, ?_, e⟩ <;> rw [e]

/-- Witness for C5: the page after a sign-in that the user abandoned. -/
theorem C5_getUserInfo_without_token_witness :
    (getUserInfo samplePlatform azureConfig
        (run samplePlatform azureConfig
          [.signinClick [1, 2] [3], .authFlowDone (some { message := none }) none]
          (onLoad samplePlatform []))).fetches =
        (run samplePlatform azureConfig
          [.signinClick [1, 2] [3], .authFlowDone (some { message := none }) none]
          (onLoad samplePlatform [])).fetches ∧
      (getUserInfo samplePlatform azureConfig
        (run samplePlatform azureConfig
          [.signinClick [1, 2] [3], .authFlowDone (some { message := none }) none]
          (onLoad samplePlatform []))).pendingFetches =
        (run samplePlatform azureConfig
          [.signinClick [1, 2] [3], .authFlowDone (some { message := none }) none]
          (onLoad samplePlatform [])).pendingFetches ∧
      (getUserInfo samplePlatform azureConfig
        (run samplePlatform azureConfig
          [.signinClick [1, 2] [3], .authFlowDone (some { message := none }) none]
          (onLoad samplePlatform []))).state =
        (run samplePlatform azureConfig
          [.signinClick [1, 2] [3], .authFlowDone (some { message := none }) none]
          (onLoad samplePlatform [])).state ∧
      (getUserInfo samplePlatform azureConfig
        (run samplePlatform azureConfig
          [.signinClick [1, 2] [3], .authFlowDone (some { message := none }) none]
          (onLoad samplePlatform []))).access_token =
        (run samplePlatform azureConfig
          [.signinClick [1, 2] [3], .authFlowDone (some { message := none }) none]
          (onLoad samplePlatform [])).access_token ∧
      getUserInfo samplePlatform azureConfig
        (run samplePlatform azureConfig
          [.signinClick [1, 2] [3], .authFlowDone (some { message := none }) none]
          (onLoad samplePlatform [])) =
        { run samplePlatform azureConfig
            [.signinClick [1, 2] [3], .authFlowDone (some { message := none }) none]
            (onLoad samplePlatform []) with
          logarea := "No access token available. Please sign in first." } :=
  C5_getUserInfo_without_token samplePlatform azureConfig []
    [.signinClick [1, 2] [3], .authFlowDone (some { message := none }) none] (by decide)

/-- C7, evaluated: a sign-in sends the state `12za7`; the redirect comes back
with the state `forged` and a code; the callback goes on to
`exchangeCodeForToken` and the page ends in `STATE_AUTHTOKEN_ACQUIRED` all the
same. -/
theorem C7_state_is_not_checked :
    generateRandomState [1, 2, 35, 10] [7] = "12za7" ∧
    (samplePlatform.newURL "https://ext/cb?code=abc&state=forged").bind
        (fun entries => searchParamsGet entries "state") = some "forged" ∧
    (run samplePlatform azureConfig
        [.signinClick [1, 2, 35, 10] [7],
          .authFlowDone none (some "https://ext/cb?code=abc&state=forged")]
        (onLoad samplePlatform [])).state = STATE_AUTHTOKEN_ACQUIRED := by
  refine ⟨by decide, by decide, by decide⟩

/-! ## The authorization URL -/

/-! ### UTF-8 decoding undoes UTF-8 encoding -/

theorem char_toNat_lt (c : Char) : c.toNat < 0x110000 := by
  have h := c.valid
  unfold UInt32.isValidChar Nat.isValidChar at h
  unfold Char.toNat
  omega

theorem char_toNat_not_surrogate (c : Char) : ¬ (0xD800 ≤ c.toNat ∧ c.toNat < 0xE000) := by
  have h := c.valid
  unfold UInt32.isValidChar Nat.isValidChar at h
  unfold Char.toNat
  omega

theorem isContinuation_low (k : Nat) : isContinuation (0x80 + k % 64) = true := by
  simp [isContinuation]; omega

theorem decodeOne_one (n : Nat) (rest : List Nat) (h : n < 0x80) :
    decodeOne n rest = (Char.ofNat n, 1) := by
  unfold decodeOne
  rw [if_pos h]

theorem decodeOne_two (n : Nat) (rest : List Nat) (h1 : 0x80 ≤ n) (h2 : n < 0x800) :
    decodeOne (0xC0 + n / 64) ((0x80 + n % 64) :: rest) = (Char.ofNat n, 2) := by
  have hb0 : ¬ (0xC0 + n / 64 < 0x80) := by omega
  have hcond : 0xC2 ≤ 0xC0 + n / 64 ∧ 0xC0 + n / 64 < 0xE0 ∧
      isContinuation (0x80 + n % 64) = true :=
    ⟨by omega, by omega, isContinuation_low n⟩
  have hval : (0xC0 + n / 64 - 0xC0) * 64 + (0x80 + n % 64 - 0x80) = n := by omega
  unfold decodeOne
  rw [if_neg hb0]
  dsimp only
  rw [if_pos hcond, hval]

theorem decodeOne_three (n : Nat) (rest : List Nat) (h1 : 0x800 ≤ n) (h2 : n < 0x10000)
    (hs : ¬ (0xD800 ≤ n ∧ n < 0xE000)) :
    decodeOne (0xE0 + n / 4096) ((0x80 + n / 64 % 64) :: (0x80 + n % 64) :: rest) =
      (Char.ofNat n, 3) := by
  have hb0 : ¬ (0xE0 + n / 4096 < 0x80) := by omega
  have hval : (0xE0 + n / 4096 - 0xE0) * 4096 + (0x80 + n / 64 % 64 - 0x80) * 64 +
      (0x80 + n % 64 - 0x80) = n := by omega
  have hc2 : ¬ (0xC2 ≤ 0xE0 + n / 4096 ∧ 0xE0 + n / 4096 < 0xE0 ∧
      isContinuation (0x80 + n / 64 % 64) = true) := by omega
  have hcond : 0xE0 ≤ 0xE0 + n / 4096 ∧ 0xE0 + n / 4096 < 0xF0 ∧
      isContinuation (0x80 + n / 64 % 64) = true ∧ isContinuation (0x80 + n % 64) = true ∧
      0x800 ≤ (0xE0 + n / 4096 - 0xE0) * 4096 + (0x80 + n / 64 % 64 - 0x80) * 64 +
        (0x80 + n % 64 - 0x80) ∧
      ¬ (0xD800 ≤ (0xE0 + n / 4096 - 0xE0) * 4096 + (0x80 + n / 64 % 64 - 0x80) * 64 +
          (0x80 + n % 64 - 0x80) ∧
        (0xE0 + n / 4096 - 0xE0) * 4096 + (0x80 + n / 64 % 64 - 0x80) * 64 +
          (0x80 + n % 64 - 0x80) < 0xE000) := by
    rw [hval]
    exact ⟨by omega, by omega, isContinuation_low _, isContinuation_low _, h1, hs⟩
  unfold decodeOne
  rw [if_neg hb0]
  dsimp only
  rw [if_neg hc2, if_pos hcond, hval]

theorem decodeOne_four (n : Nat) (rest : List Nat) (h1 : 0x10000 ≤ n) (h2 : n < 0x110000) :
    decodeOne (0xF0 + n / 262144)
        ((0x80 + n / 4096 % 64) :: (0x80 + n / 64 % 64) :: (0x80 + n % 64) :: rest) =
      (Char.ofNat n, 4) := by
  have hb0 : ¬ (0xF0 + n / 262144 < 0x80) := by omega
  have hval : (0xF0 + n / 262144 - 0xF0) * 262144 + (0x80 + n / 4096 % 64 - 0x80) * 4096 +
      (0x80 + n / 64 % 64 - 0x80) * 64 + (0x80 + n % 64 - 0x80) = n := by omega
  have hc2 : ¬ (0xC2 ≤ 0xF0 + n / 262144 ∧ 0xF0 + n / 262144 < 0xE0 ∧
      isContinuation (0x80 + n / 4096 % 64) = true) := by omega
  have hc3 : ¬ (0xE0 ≤ 0xF0 + n / 262144 ∧ 0xF0 + n / 262144 < 0xF0 ∧
      isContinuation (0x80 + n / 4096 % 64) = true ∧
      isContinuation (0x80 + n / 64 % 64) = true ∧
      0x800 ≤ (0xF0 + n / 262144 - 0xE0) * 4096 + (0x80 + n / 4096 % 64 - 0x80) * 64 +
        (0x80 + n / 64 % 64 - 0x80) ∧
      ¬ (0xD800 ≤ (0xF0 + n / 262144 - 0xE0) * 4096 + (0x80 + n / 4096 % 64 - 0x80) * 64 +
          (0x80 + n / 64 % 64 - 0x80) ∧
        (0xF0 + n / 262144 - 0xE0) * 4096 + (0x80 + n / 4096 % 64 - 0x80) * 64 +
          (0x80 + n / 64 % 64 - 0x80) < 0xE000)) := by omega
  have hcond : 0xF0 ≤ 0xF0 + n / 262144 ∧ 0xF0 + n / 262144 < 0xF5 ∧
      isContinuation (0x80 + n / 4096 % 64) = true ∧
      isContinuation (0x80 + n / 64 % 64) = true ∧ isContinuation (0x80 + n % 64) = true ∧
      0x10000 ≤ (0xF0 + n / 262144 - 0xF0) * 262144 + (0x80 + n / 4096 % 64 - 0x80) * 4096 +
        (0x80 + n / 64 % 64 - 0x80) * 64 + (0x80 + n % 64 - 0x80) ∧
      (0xF0 + n / 262144 - 0xF0) * 262144 + (0x80 + n / 4096 % 64 - 0x80) * 4096 +
        (0x80 + n / 64 % 64 - 0x80) * 64 + (0x80 + n % 64 - 0x80) < 0x110000 := by
    rw [hval]
    exact ⟨by omega, by omega, isContinuation_low _, isContinuation_low _,
      isContinuation_low _, h1, h2⟩
  unfold decodeOne
  rw [if_neg hb0]
  dsimp only
  rw [if_neg hc2, if_neg hc3, if_pos hcond, hval]

theorem utf8DecodeFrom_bytes (c : Char) (rest : List Nat) :
    utf8DecodeFrom 0 (utf8Bytes c ++ rest) = c :: utf8DecodeFrom 0 rest := by
  have hlt := char_toNat_lt c
  have hsur := char_toNat_not_surrogate c
  have hc : Char.ofNat c.toNat = c := Char.ofNat_toNat c
  unfold utf8Bytes
  dsimp only
  by_cases h1 : c.toNat < 0x80
  · rw [if_pos h1]
    show utf8DecodeFrom 0 (c.toNat :: rest) = _
    rw [utf8DecodeFrom, decodeOne_one _ _ h1, hc]
    rfl
  · rw [if_neg h1]
    by_cases h2 : c.toNat < 0x800
    · rw [if_pos h2]
      show utf8DecodeFrom 0 ((0xC0 + c.toNat / 64) :: (0x80 + c.toNat % 64) :: rest) = _
      rw [utf8DecodeFrom, decodeOne_two _ _ (by omega) h2, hc]
      rfl
    · rw [if_neg h2]
      by_cases h3 : c.toNat < 0x10000
      · rw [if_pos h3]
        show utf8DecodeFrom 0 ((0xE0 + c.toNat / 4096) :: (0x80 + c.toNat / 64 % 64) ::
          (0x80 + c.toNat % 64) :: rest) = _
        rw [utf8DecodeFrom, decodeOne_three _ _ (by omega) h3 hsur, hc]
        rfl
      · rw [if_neg h3]
        show utf8DecodeFrom 0 ((0xF0 + c.toNat / 262144) :: (0x80 + c.toNat / 4096 % 64) ::
          (0x80 + c.toNat / 64 % 64) :: (0x80 + c.toNat % 64) :: rest) = _
        rw [utf8DecodeFrom, decodeOne_four _ _ (by omega) hlt, hc]
        rfl

theorem utf8Decode_bytes (cs : List Char) :
    utf8Decode (cs.flatMap utf8Bytes) = cs := by
  unfold utf8Decode
  induction cs with
  | nil => rfl
  | cons c cs ih =>
    rw [List.flatMap_cons, utf8DecodeFrom_bytes, ih]


/-! ### Percent-decoding undoes `encodeURIComponent` -/

theorem hexValue_hexDigit (k : Nat) (h : k < 16) : hexValue (hexDigit k) = some k := by
  interval_cases k <;> decide

theorem escapedByte_pct (b : Nat) (h : b < 256) (rest : List Char) :
    escapedByte (hexDigit (b / 16) :: hexDigit (b % 16) :: rest) = some b := by
  unfold escapedByte
  simp only [hexValue_hexDigit (b / 16) (by omega), hexValue_hexDigit (b % 16) (by omega)]
  congr 1
  omega

theorem percentDecodeFrom_pct (b : Nat) (h : b < 256) (rest : List Char) :
    percentDecodeFrom 0 (pctEncodeByte b ++ rest) = b :: percentDecodeFrom 0 rest := by
  show percentDecodeFrom 0 ('%' :: hexDigit (b / 16) :: hexDigit (b % 16) :: rest) = _
  rw [percentDecodeFrom, if_pos rfl, escapedByte_pct b h rest]
  rfl

theorem utf8Bytes_lt (c : Char) : ∀ b ∈ utf8Bytes c, b < 256 := by
  have hlt := char_toNat_lt c
  unfold utf8Bytes
  dsimp only
  intro b hb
  split at hb
  · simp at hb; omega
  · split at hb
    · simp at hb; omega
    · split at hb
      · simp at hb; omega
      · simp at hb; omega

theorem percentDecodeFrom_bytes (bs : List Nat) (h : ∀ b ∈ bs, b < 256) (rest : List Char) :
    percentDecodeFrom 0 (bs.flatMap pctEncodeByte ++ rest) = bs ++ percentDecodeFrom 0 rest := by
  induction bs with
  | nil => rfl
  | cons b bs ih =>
    rw [List.flatMap_cons, List.append_assoc,
      percentDecodeFrom_pct b (h b (List.mem_cons_self b bs)),
      ih (fun x hx => h x (List.mem_cons_of_mem b hx))]
    rfl

theorem percentDecodeFrom_plain (c : Char) (h : c ≠ '%') (rest : List Char) :
    percentDecodeFrom 0 (c :: rest) = utf8Bytes c ++ percentDecodeFrom 0 rest := by
  rw [percentDecodeFrom, if_neg h]

theorem uriUnreserved_ne_percent (c : Char) (h : uriUnreserved c = true) : c ≠ '%' := by
  intro hc
  subst hc
  exact absurd h (by decide)

theorem percentDecodeFrom_encodeURIChar (c : Char) (rest : List Char) :
    percentDecodeFrom 0 (encodeURIChar c ++ rest) = utf8Bytes c ++ percentDecodeFrom 0 rest := by
  unfold encodeURIChar
  by_cases h : uriUnreserved c = true
  · rw [if_pos h]
    exact percentDecodeFrom_plain c (uriUnreserved_ne_percent c h) rest
  · rw [if_neg h]
    exact percentDecodeFrom_bytes _ (utf8Bytes_lt c) rest

theorem percentDecode_encode (cs : List Char) :
    percentDecode (cs.flatMap encodeURIChar) = cs.flatMap utf8Bytes := by
  unfold percentDecode
  induction cs with
  | nil => rfl
  | cons c cs ih =>
    rw [List.flatMap_cons, percentDecodeFrom_encodeURIChar, ih, List.flatMap_cons]

theorem percentDecode_plain (cs : List Char) (h : ∀ c ∈ cs, c ≠ '%') :
    percentDecode cs = cs.flatMap utf8Bytes := by
  unfold percentDecode
  induction cs with
  | nil => rfl
  | cons c cs ih =>
    rw [percentDecodeFrom_plain c (h c (List.mem_cons_self c cs)),
      ih (fun x hx => h x (List.mem_cons_of_mem c hx)), List.flatMap_cons]

theorem map_plus_id (cs : List Char) (h : ∀ c ∈ cs, c ≠ '+') :
    cs.map (fun c => if c = '+' then ' ' else c) = cs := by
  induction cs with
  | nil => rfl
  | cons c cs ih =>
    rw [List.map_cons, if_neg (h c (List.mem_cons_self c cs)),
      ih (fun x hx => h x (List.mem_cons_of_mem c hx))]

theorem formDecode_plain (cs : List Char) (h : ∀ c ∈ cs, c ≠ '%' ∧ c ≠ '+') :
    formDecode cs = String.mk cs := by
  unfold formDecode
  rw [map_plus_id cs (fun c hc => (h c hc).2), percentDecode_plain cs (fun c hc => (h c hc).1),
    utf8Decode_bytes]

theorem hexDigit_alphanum (k : Nat) (h : k < 16) : uriUnreserved (hexDigit k) = true := by
  interval_cases k <;> decide

theorem mem_encodeURIChar (c d : Char) (h : d ∈ encodeURIChar c) :
    uriUnreserved d = true ∨ d = '%' := by
  unfold encodeURIChar at h
  by_cases hu : uriUnreserved c = true
  · rw [if_pos hu] at h
    simp at h
    subst h
    exact Or.inl hu
  · rw [if_neg hu] at h
    rw [List.mem_flatMap] at h
    obtain ⟨b, hb, hd⟩ := h
    have hlt := utf8Bytes_lt c b hb
    unfold pctEncodeByte at hd
    simp only [List.mem_cons, List.mem_singleton, List.not_mem_nil, or_false] at hd
    rcases hd with hd | hd | hd
    · exact Or.inr hd
    · left; rw [hd]; exact hexDigit_alphanum _ (by omega)
    · left; rw [hd]; exact hexDigit_alphanum _ (by omega)

theorem mem_encodeURIComponent (s : String) (d : Char) (h : d ∈ (encodeURIComponent s).data) :
    uriUnreserved d = true ∨ d = '%' := by
  unfold encodeURIComponent at h
  simp only [List.mem_flatMap] at h
  obtain ⟨c, _, hd⟩ := h
  exact mem_encodeURIChar c d hd

theorem formDecode_encodeURIComponent (s : String) :
    formDecode (encodeURIComponent s).data = s := by
  have hplus : ∀ c ∈ (encodeURIComponent s).data, c ≠ '+' := by
    intro c hc hp
    subst hp
    rcases mem_encodeURIComponent s _ hc with h | h
    · exact absurd h (by decide)
    · exact absurd h (by decide)
  unfold formDecode
  rw [map_plus_id _ hplus]
  show String.mk (utf8Decode (percentDecode (s.data.flatMap encodeURIChar))) = s
  rw [percentDecode_encode, utf8Decode_bytes]

/-! ### Splitting a query -/

theorem splitAt_ne_nil (sep : Char) (cs : List Char) : splitAt sep cs ≠ [] := by
  cases cs with
  | nil => simp [splitAt]
  | cons c cs =>
    unfold splitAt
    split
    · simp
    · split <;> simp

theorem splitAt_plain (sep : Char) (cs : List Char) (h : ∀ c ∈ cs, c ≠ sep) :
    splitAt sep cs = [cs] := by
  induction cs with
  | nil => rfl
  | cons c cs ih =>
    unfold splitAt
    rw [if_neg (h c (List.mem_cons_self c cs)),
      ih (fun x hx => h x (List.mem_cons_of_mem c hx))]

theorem splitAt_append (sep : Char) (piece rest : List Char) (h : ∀ c ∈ piece, c ≠ sep) :
    splitAt sep (piece ++ sep :: rest) = piece :: splitAt sep rest := by
  induction piece with
  | nil =>
    show splitAt sep (sep :: rest) = _
    rw [splitAt, if_pos rfl]
  | cons c cs ih =>
    show splitAt sep (c :: (cs ++ sep :: rest)) = _
    rw [splitAt, if_neg (h c (List.mem_cons_self c cs)),
      ih (fun x hx => h x (List.mem_cons_of_mem c hx))]

theorem takeWhile_plain (sep : Char) (cs : List Char) (h : ∀ c ∈ cs, c ≠ sep) :
    cs.takeWhile (fun c => c != sep) = cs := by
  induction cs with
  | nil => rfl
  | cons c cs ih =>
    have hc : (c != sep) = true := by simpa using h c (List.mem_cons_self c cs)
    rw [List.takeWhile_cons, hc, if_pos rfl, ih (fun x hx => h x (List.mem_cons_of_mem c hx))]

theorem takeWhile_append (sep : Char) (piece rest : List Char) (h : ∀ c ∈ piece, c ≠ sep) :
    (piece ++ sep :: rest).takeWhile (fun c => c != sep) = piece := by
  induction piece with
  | nil => simp [List.takeWhile_cons]
  | cons c cs ih =>
    have hc : (c != sep) = true := by simpa using h c (List.mem_cons_self c cs)
    show (c :: (cs ++ sep :: rest)).takeWhile _ = _
    rw [List.takeWhile_cons, hc, if_pos rfl, ih (fun x hx => h x (List.mem_cons_of_mem c hx))]

theorem dropWhile_append (sep : Char) (piece rest : List Char) (h : ∀ c ∈ piece, c ≠ sep) :
    (piece ++ sep :: rest).dropWhile (fun c => c != sep) = sep :: rest := by
  induction piece with
  | nil => simp [List.dropWhile_cons]
  | cons c cs ih =>
    have hc : (c != sep) = true := by simpa using h c (List.mem_cons_self c cs)
    show (c :: (cs ++ sep :: rest)).dropWhile _ = _
    rw [List.dropWhile_cons, hc, if_pos rfl, ih (fun x hx => h x (List.mem_cons_of_mem c hx))]

theorem nameValue_append (name value : List Char) (h : ∀ c ∈ name, c ≠ '=') :
    nameValue (name ++ '=' :: value) = (name, value) := by
  unfold nameValue
  rw [takeWhile_append '=' name value h, dropWhile_append '=' name value h]
  rfl

/-- One `name=value` piece followed by `&` and more. -/
theorem parseQuery_cons (name value rest : List Char)
    (hn : ∀ c ∈ name, c ≠ '=' ∧ c ≠ '&') (hv : ∀ c ∈ value, c ≠ '&') :
    parseQuery (name ++ '=' :: value ++ '&' :: rest) =
      (formDecode name, formDecode value) :: parseQuery rest := by
  have hpiece : ∀ c ∈ name ++ '=' :: value, c ≠ '&' := by
    intro c hc
    rcases List.mem_append.1 hc with h | h
    · exact (hn c h).2
    · rcases List.mem_cons.1 h with h | h
      · rw [h]; decide
      · exact hv c h
  unfold parseQuery
  rw [splitAt_append '&' _ rest hpiece, List.filter_cons]
  have hne : (!(name ++ '=' :: value).isEmpty) = true := by
    cases name <;> rfl
  rw [if_pos hne, List.map_cons, nameValue_append name value (fun c hc => (hn c hc).1)]

/-- The last `name=value` piece. -/
theorem parseQuery_last (name value : List Char)
    (hn : ∀ c ∈ name, c ≠ '=' ∧ c ≠ '&') (hv : ∀ c ∈ value, c ≠ '&') :
    parseQuery (name ++ '=' :: value) = [(formDecode name, formDecode value)] := by
  have hpiece : ∀ c ∈ name ++ '=' :: value, c ≠ '&' := by
    intro c hc
    rcases List.mem_append.1 hc with h | h
    · exact (hn c h).2
    · rcases List.mem_cons.1 h with h | h
      · rw [h]; decide
      · exact hv c h
  unfold parseQuery
  rw [splitAt_plain '&' _ hpiece, List.filter_cons]
  have hne : (!(name ++ '=' :: value).isEmpty) = true := by
    cases name <;> rfl
  rw [if_pos hne, List.filter_nil, List.map_cons, List.map_nil,
    nameValue_append name value (fun c hc => (hn c hc).1)]

/-! ### The query of the authorization URL -/

theorem radix36Digit_unreserved (d : Fin 36) : uriUnreserved (radix36Digit d) = true := by
  revert d; decide

theorem substring_random (r : List (Fin 36)) :
    (substring (randomToString36 r) 2 15).data = (r.map radix36Digit).take 13 := by
  cases r with
  | nil => rfl
  | cons d ds => rfl

theorem mem_generateRandomState (r1 r2 : List (Fin 36)) (c : Char)
    (h : c ∈ (generateRandomState r1 r2).data) : uriUnreserved c = true := by
  unfold generateRandomState at h
  rw [String.data_append, substring_random, substring_random, List.mem_append] at h
  rcases h with h | h
  · obtain ⟨d, _, hd⟩ := List.mem_map.1 (List.mem_of_mem_take h)
    rw [← hd]; exact radix36Digit_unreserved d
  · obtain ⟨d, _, hd⟩ := List.mem_map.1 (List.mem_of_mem_take h)
    rw [← hd]; exact radix36Digit_unreserved d

/-- A character `encodeURIComponent` may write: unreserved, or `%`. -/
theorem safe_ne (c x : Char) (h : uriUnreserved c = true ∨ c = '%')
    (hx : uriUnreserved x = false) (hp : x ≠ '%') : c ≠ x := by
  intro hc
  subst hc
  rcases h with h | h
  · rw [hx] at h; exact absurd h (by decide)
  · exact hp h

theorem authUrl_data (cfg : AzureConfig) (redirectUri state : String) :
    (authUrl cfg redirectUri state).data =
      cfg.authorizationUrl.data ++ '?' ::
        ("client_id".data ++ '=' :: (encodeURIComponent cfg.clientId).data ++ '&' ::
          ("response_type".data ++ '=' :: "Assertion".data ++ '&' ::
            ("state".data ++ '=' :: state.data ++ '&' ::
              ("scope".data ++ '=' :: (encodeURIComponent cfg.scopes).data ++ '&' ::
                ("redirect_uri".data ++ '=' :: (encodeURIComponent redirectUri).data))))) := by
  unfold authUrl
  simp only [String.data_append]
  simp only [List.append_assoc, List.cons_append, List.nil_append]


theorem formDecode_unreserved (cs : List Char) (h : ∀ c ∈ cs, uriUnreserved c = true) :
    formDecode cs = String.mk cs := by
  refine formDecode_plain cs (fun c hc => ⟨?_, ?_⟩)
  · intro hp; subst hp; exact absurd (h _ hc) (by decide)
  · intro hp; subst hp; exact absurd (h _ hc) (by decide)

theorem forall_mem_of_all (cs : List Char) (f : Char → Bool) (h : cs.all f = true) :
    ∀ c ∈ cs, f c = true := by
  intro c hc
  exact List.all_eq_true.1 h c hc

/-- The query of an authorization URL, as characters. -/
theorem parse_authUrl_chars (E1 S E2 E3 : List Char)
    (h1 : ∀ c ∈ E1, c ≠ '&' ∧ c ≠ '#') (hS : ∀ c ∈ S, c ≠ '&' ∧ c ≠ '#')
    (h2 : ∀ c ∈ E2, c ≠ '&' ∧ c ≠ '#') (h3 : ∀ c ∈ E3, c ≠ '&' ∧ c ≠ '#') :
    hasScheme (azureConfig.authorizationUrl.data ++ '?' ::
      ("client_id".data ++ '=' :: E1 ++ '&' ::
        ("response_type".data ++ '=' :: "Assertion".data ++ '&' ::
          ("state".data ++ '=' :: S ++ '&' ::
            ("scope".data ++ '=' :: E2 ++ '&' ::
              ("redirect_uri".data ++ '=' :: E3)))))) = true ∧
    parseQuery (queryText (azureConfig.authorizationUrl.data ++ '?' ::
      ("client_id".data ++ '=' :: E1 ++ '&' ::
        ("response_type".data ++ '=' :: "Assertion".data ++ '&' ::
          ("state".data ++ '=' :: S ++ '&' ::
            ("scope".data ++ '=' :: E2 ++ '&' ::
              ("redirect_uri".data ++ '=' :: E3))))))) =
      [(formDecode "client_id".data, formDecode E1),
        (formDecode "response_type".data, formDecode "Assertion".data),
        (formDecode "state".data, formDecode S),
        (formDecode "scope".data, formDecode E2),
        (formDecode "redirect_uri".data, formDecode E3)] := by
  refine ⟨rfl, ?_⟩
  have a1 : E1.all (fun c => c != '#') = true :=
    List.all_eq_true.2 (fun c hc => by simpa using (h1 c hc).2)
  have aS : S.all (fun c => c != '#') = true :=
    List.all_eq_true.2 (fun c hc => by simpa using (hS c hc).2)
  have a2 : E2.all (fun c => c != '#') = true :=
    List.all_eq_true.2 (fun c hc => by simpa using (h2 c hc).2)
  have a3 : E3.all (fun c => c != '#') = true :=
    List.all_eq_true.2 (fun c hc => by simpa using (h3 c hc).2)
  have hall : (azureConfig.authorizationUrl.data ++ '?' ::
      ("client_id".data ++ '=' :: E1 ++ '&' ::
        ("response_type".data ++ '=' :: "Assertion".data ++ '&' ::
          ("state".data ++ '=' :: S ++ '&' ::
            ("scope".data ++ '=' :: E2 ++ '&' ::
              ("redirect_uri".data ++ '=' :: E3)))))).all (fun c => c != '#') = true := by
    simp only [List.all_append, List.all_cons, a1, aS, a2, a3, Bool.and_true, Bool.true_and]
    decide
  have hlit : ∀ (l : List Char) (x : Char), l.all (fun c => c != x) = true →
      ∀ c ∈ l, c ≠ x := by
    intro l x h c hc
    simpa using List.all_eq_true.1 h c hc
  have hname : ∀ (l : List Char), l.all (fun c => c != '=' && c != '&') = true →
      ∀ c ∈ l, c ≠ '=' ∧ c ≠ '&' := by
    intro l h c hc
    simpa using List.all_eq_true.1 h c hc
  unfold queryText
  rw [takeWhile_plain '#' _ (hlit _ '#' hall),
    dropWhile_append '?' _ _ (hlit _ '?' (by decide)), List.drop_one, List.tail_cons,
    parseQuery_cons _ _ _ (hname _ (by decide)) (fun c hc => (h1 c hc).1),
    parseQuery_cons _ _ _ (hname _ (by decide)) (hlit _ '&' (by decide)),
    parseQuery_cons _ _ _ (hname _ (by decide)) (fun c hc => (hS c hc).1),
    parseQuery_cons _ _ _ (hname _ (by decide)) (fun c hc => (h2 c hc).1),
    parseQuery_last _ _ (hname _ (by decide)) (fun c hc => (h3 c hc).1)]

/-- The entries the sample `URL` reads off an authorization URL of the sample. -/
theorem sampleNewURL_authUrl (clientId scopes redirectUri : String) (r1 r2 : List (Fin 36)) :
    sampleNewURL (authUrl { azureConfig with clientId := clientId, scopes := scopes }
        redirectUri (generateRandomState r1 r2)) =
      some [("client_id", clientId), ("response_type", "Assertion"),
        ("state", generateRandomState r1 r2), ("scope", scopes),
        ("redirect_uri", redirectUri)] := by
  unfold sampleNewURL
  rw [authUrl_data]
  have hs : hasScheme (azureConfig.authorizationUrl.data ++ '?' ::
      ("client_id".data ++ '=' :: (encodeURIComponent clientId).data ++ '&' ::
        ("response_type".data ++ '=' :: "Assertion".data ++ '&' ::
          ("state".data ++ '=' :: (generateRandomState r1 r2).data ++ '&' ::
            ("scope".data ++ '=' :: (encodeURIComponent scopes).data ++ '&' ::
              ("redirect_uri".data ++ '=' :: (encodeURIComponent redirectUri).data)))))) =
      true := rfl
  have hand : ∀ (l : List Char), (∀ c ∈ l, uriUnreserved c = true ∨ c = '%') →
      ∀ c ∈ l, c ≠ '&' ∧ c ≠ '#' :=
    fun l h c hc => ⟨safe_ne c '&' (h c hc) (by decide) (by decide),
      safe_ne c '#' (h c hc) (by decide) (by decide)⟩
  obtain ⟨_, hq⟩ := parse_authUrl_chars (encodeURIComponent clientId).data
    (generateRandomState r1 r2).data (encodeURIComponent scopes).data
    (encodeURIComponent redirectUri).data
    (hand _ (mem_encodeURIComponent clientId))
    (hand _ (fun c hc => Or.inl (mem_generateRandomState r1 r2 c hc)))
    (hand _ (mem_encodeURIComponent scopes))
    (hand _ (mem_encodeURIComponent redirectUri))
  rw [if_pos hs]
  show some (parseQuery (queryText (azureConfig.authorizationUrl.data ++ '?' ::
      ("client_id".data ++ '=' :: (encodeURIComponent clientId).data ++ '&' ::
        ("response_type".data ++ '=' :: "Assertion".data ++ '&' ::
          ("state".data ++ '=' :: (generateRandomState r1 r2).data ++ '&' ::
            ("scope".data ++ '=' :: (encodeURIComponent scopes).data ++ '&' ::
              ("redirect_uri".data ++ '=' ::
                (encodeURIComponent redirectUri).data)))))))) = _
  rw [hq, formDecode_encodeURIComponent, formDecode_encodeURIComponent,
    formDecode_encodeURIComponent,
    formDecode_unreserved _ (mem_generateRandomState r1 r2)]
  rfl

/-! ### The scenario of section 8 -/

/-- A text holding a character that `encodeURIComponent` would escape, and no
`&`, does not start inside a run of unreserved characters that `&` follows. -/
theorem not_isPrefixOf_run (run : List Char) (hrun : ∀ c ∈ run, uriUnreserved c = true)
    (tail : List Char) :
    ∀ needle : List Char, (∃ x ∈ needle, uriUnreserved x = false) → (∀ c ∈ needle, c ≠ '&') →
      needle.isPrefixOf (run ++ '&' :: tail) = false := by
  induction run with
  | nil =>
    intro needle hx hamp
    cases needle with
    | nil => obtain ⟨x, hx, _⟩ := hx; cases hx
    | cons n ns =>
      show (n :: ns).isPrefixOf ('&' :: tail) = false
      have : (n == '&') = false := by simpa using hamp n (List.mem_cons_self n ns)
      simp [List.isPrefixOf, this]
  | cons s run ih =>
    intro needle hx hamp
    cases needle with
    | nil => obtain ⟨x, hx, _⟩ := hx; cases hx
    | cons n ns =>
      show (n :: ns).isPrefixOf (s :: (run ++ '&' :: tail)) = false
      by_cases hns : n = s
      · subst hns
        have hn : uriUnreserved n = true := hrun n (List.mem_cons_self n run)
        have hx' : ∃ x ∈ ns, uriUnreserved x = false := by
          obtain ⟨x, hxm, hxu⟩ := hx
          rcases List.mem_cons.1 hxm with h | h
          · subst h; rw [hn] at hxu; cases hxu
          · exact ⟨x, h, hxu⟩
        have := ih (fun c hc => hrun c (List.mem_cons_of_mem n hc)) ns hx'
          (fun c hc => hamp c (List.mem_cons_of_mem n hc))
        simp [List.isPrefixOf, this]
      · have : (n == s) = false := by simpa using hns
        simp [List.isPrefixOf, this]

theorem occurrences_run (needle : List Char) (hx : ∃ x ∈ needle, uriUnreserved x = false)
    (hamp : ∀ c ∈ needle, c ≠ '&') (tail : List Char) :
    ∀ run : List Char, (∀ c ∈ run, uriUnreserved c = true) →
      occurrences needle (run ++ '&' :: tail) = occurrences needle ('&' :: tail) := by
  intro run
  induction run with
  | nil => intro _; rfl
  | cons s run ih =>
    intro hrun
    show occurrences needle (s :: (run ++ '&' :: tail)) = _
    have hp : needle.isPrefixOf (s :: (run ++ '&' :: tail)) = false :=
      not_isPrefixOf_run (s :: run) hrun tail needle hx hamp
    rw [occurrences, hp, ih (fun c hc => hrun c (List.mem_cons_of_mem s hc))]
    rfl

theorem scenario_data (state : String) :
    (authUrl scenarioConfig "https://ext/cb" state).data =
      "https://app.vssps.visualstudio.com/oauth2/authorize?client_id=abc&response_type=Assertion&state=".data ++
        (state.data ++
          "&scope=vso.profile%20vso.project&redirect_uri=https%3A%2F%2Fext%2Fcb".data) := by
  rw [authUrl_data]
  have e1 : (encodeURIComponent scenarioConfig.clientId).data = "abc".data := by decide
  have e2 : (encodeURIComponent scenarioConfig.scopes).data =
      "vso.profile%20vso.project".data := by decide
  have e3 : (encodeURIComponent "https://ext/cb").data = "https%3A%2F%2Fext%2Fcb".data := by
    decide
  rw [e1, e2, e3]
  simp only [List.append_assoc, List.cons_append, List.nil_append]
  rfl

theorem scenario_url (state : String) :
    authUrl scenarioConfig "https://ext/cb" state =
      "https://app.vssps.visualstudio.com/oauth2/authorize?client_id=abc&response_type=Assertion&state=" ++
        state ++ "&scope=vso.profile%20vso.project&redirect_uri=https%3A%2F%2Fext%2Fcb" := by
  apply String.ext
  rw [scenario_data, String.data_append, String.data_append, List.append_assoc]

set_option maxRecDepth 100000 in
/-- Occurrences of the four texts of the scenario, and of the redirect URI as
given, in the URL of the scenario. -/
theorem scenario_occurrences (state : String)
    (hstate : ∀ c ∈ state.data, uriUnreserved c = true) :
    occurrences "client_id=abc".data (authUrl scenarioConfig "https://ext/cb" state).data = 1 ∧
    occurrences "response_type=Assertion".data
      (authUrl scenarioConfig "https://ext/cb" state).data = 1 ∧
    occurrences "vso.profile%20vso.project".data
      (authUrl scenarioConfig "https://ext/cb" state).data = 1 ∧
    occurrences "https%3A%2F%2Fext%2Fcb".data
      (authUrl scenarioConfig "https://ext/cb" state).data = 1 ∧
    occurrences "https://ext/cb".data (authUrl scenarioConfig "https://ext/cb" state).data = 0 := by
  rw [scenario_data]
  have front : ∀ (needle R : List Char) (k : Nat),
      (∀ R' : List Char, occurrences needle
        ("https://app.vssps.visualstudio.com/oauth2/authorize?client_id=abc&response_type=Assertion&state=".data ++ R') = occurrences needle R' + k) →
      (∃ x ∈ needle, uriUnreserved x = false) → (∀ c ∈ needle, c ≠ '&') →
      occurrences needle ("https://app.vssps.visualstudio.com/oauth2/authorize?client_id=abc&response_type=Assertion&state=".data ++
        (state.data ++
          "&scope=vso.profile%20vso.project&redirect_uri=https%3A%2F%2Fext%2Fcb".data)) =
        occurrences needle
          "&scope=vso.profile%20vso.project&redirect_uri=https%3A%2F%2Fext%2Fcb".data + k := by
    intro needle R k hfront hx hamp
    rw [hfront]
    exact congrArg (fun n => n + k)
      (occurrences_run needle hx hamp _ state.data hstate)
  refine ⟨?_, ?_, ?_, ?_, ?_⟩
  · rw [front "client_id=abc".data [] 1 (fun _ => rfl) ⟨'=', by decide, by decide⟩
      (by decide)]
    decide
  · rw [front "response_type=Assertion".data [] 1 (fun _ => rfl) ⟨'=', by decide, by decide⟩
      (by decide)]
    decide
  · rw [front "vso.profile%20vso.project".data [] 0 (fun _ => rfl) ⟨'%', by decide, by decide⟩
      (by decide)]
    decide
  · rw [front "https%3A%2F%2Fext%2Fcb".data [] 0 (fun _ => rfl) ⟨'%', by decide, by decide⟩
      (by decide)]
    decide
  · rw [front "https://ext/cb".data [] 0 (fun _ => rfl) ⟨':', by decide, by decide⟩
      (by decide)]
    decide

/-- C8, as the code has it: for every client id, scope string, redirect URI and
generated state, the URL `interactiveSignIn` hands to `launchWebAuthFlow` is
`authUrl`, and a URL parser reads off it exactly the five parameters
`client_id`, `response_type`, `state`, `scope`, `redirect_uri`, each once, with
the client id, `Assertion`, the state, the scope and the redirect URI as their
values.  In the scenario of section 8 the URL is the text displayed below; it
holds `client_id=abc`, `response_type=Assertion`, the scope as
`vso.profile%20vso.project` and the redirect URI percent-encoded as
`https%3A%2F%2Fext%2Fcb`, each exactly once, and it does not hold the redirect
URI as given. -/
theorem C8_authorization_url (P : Platform) (clientId scopes : String)
    (r1 r2 : List (Fin 36)) (p : Page) :
    (interactiveSignIn P { azureConfig with clientId := clientId, scopes := scopes }
        r1 r2 p).authFlows =
      p.authFlows ++ [authUrl { azureConfig with clientId := clientId, scopes := scopes }
        P.getRedirectURL (generateRandomState r1 r2)] ∧
    sampleNewURL (authUrl { azureConfig with clientId := clientId, scopes := scopes }
        P.getRedirectURL (generateRandomState r1 r2)) =
      some [("client_id", clientId), ("response_type", "Assertion"),
        ("state", generateRandomState r1 r2), ("scope", scopes),
        ("redirect_uri", P.getRedirectURL)] ∧
    authUrl scenarioConfig "https://ext/cb" (generateRandomState r1 r2) =
      "https://app.vssps.visualstudio.com/oauth2/authorize?client_id=abc&response_type=Assertion&state=" ++
        generateRandomState r1 r2 ++
        "&scope=vso.profile%20vso.project&redirect_uri=https%3A%2F%2Fext%2Fcb" ∧
    occurrences "client_id=abc".data
      (authUrl scenarioConfig "https://ext/cb" (generateRandomState r1 r2)).data = 1 ∧
    occurrences "response_type=Assertion".data
      (authUrl scenarioConfig "https://ext/cb" (generateRandomState r1 r2)).data = 1 ∧
    occurrences "vso.profile%20vso.project".data
      (authUrl scenarioConfig "https://ext/cb" (generateRandomState r1 r2)).data = 1 ∧
    occurrences "https%3A%2F%2Fext%2Fcb".data
      (authUrl scenarioConfig "https://ext/cb" (generateRandomState r1 r2)).data = 1 ∧
    occurrences "https://ext/cb".data
      (authUrl scenarioConfig "https://ext/cb" (generateRandomState r1 r2)).data = 0 := by
  refine ⟨?_, sampleNewURL_authUrl clientId scopes P.getRedirectURL r1 r2,
    scenario_url _, scenario_occurrences _ (mem_generateRandomState r1 r2)⟩
  rw [interactiveSignIn_eq]

set_option maxRecDepth 100000 in
/-- Counterexample to C8 as stated: in the scenario, with the state `12za7`,
the redirect URI `https://ext/cb` occurs nowhere in the authorization URL, where
the claim has it occur exactly once. -/
theorem C8_redirect_uri_not_verbatim :
    generateRandomState [1, 2, 35, 10] [7] = "12za7" ∧
    authUrl scenarioConfig "https://ext/cb" (generateRandomState [1, 2, 35, 10] [7]) =
      "https://app.vssps.visualstudio.com/oauth2/authorize?client_id=abc&response_type=Assertion&state=12za7&scope=vso.profile%20vso.project&redirect_uri=https%3A%2F%2Fext%2Fcb" ∧
    occurrences "https://ext/cb".data
      (authUrl scenarioConfig "https://ext/cb"
        (generateRandomState [1, 2, 35, 10] [7])).data ≠ 1 := by
  refine ⟨by decide, by decide, by decide⟩

/-! ## `revokeToken` in `STATE_START` -/

theorem revokeToken_in_start (P : Platform) (p : Page)
    (hs : p.state = STATE_START) (ht : p.access_token = none) (hu : p.user_info = [])
    (h1 : p.signin_disabled = false) (h2 : p.userinfo_disabled = true)
    (h3 : p.revoke_disabled = true) :
    revokeToken P p = { p with logarea := "Token revoked. You have been signed out." } := by
  simp only [revokeToken, changeState_start, displayOutput_string]
  cases p
  simp_all

theorem step_user_info (P : Platform) (cfg : AzureConfig) (e : Event) (p : Page)
    (h : Settled p) :
    (step P cfg e p).user_info = p.user_info ∨ (step P cfg e p).user_info = [] := by
  obtain ⟨_, htoken, hfetch, _⟩ := h
  unfold step
  by_cases hd : e.deliverable p = true
  · rw [if_pos hd]
    cases e with
    | signinClick r1 r2 =>
      left
      rw [show handle P cfg (.signinClick r1 r2) p = interactiveSignIn P cfg r1 r2 p from rfl,
        interactiveSignIn_eq]
    | userinfoClick =>
      left
      rw [show handle P cfg .userinfoClick p = getUserInfo P cfg p from rfl,
        getUserInfo_no_token P cfg p htoken]
    | revokeClick =>
      right
      rw [show handle P cfg .revokeClick p = revokeToken P p from rfl, revokeToken_eq]
    | authFlowDone lastError redirectUrl =>
      left
      rw [show handle P cfg (.authFlowDone lastError redirectUrl) p =
        (authFlowCallback P cfg lastError redirectUrl
          { p with pendingAuthFlows := p.pendingAuthFlows - 1 }).page from rfl]
      rcases authFlowCallback_cases P cfg lastError redirectUrl
        { p with pendingAuthFlows := p.pendingAuthFlows - 1 } with
        ⟨text, hq, _⟩ | ⟨hq, _⟩ | ⟨text, hq, _⟩ <;> rw [hq]
    | fetchDone result =>
      exfalso
      simp [Event.deliverable, hfetch] at hd
  · rw [if_neg hd]
    left; rfl

theorem run_user_info (P : Platform) (cfg : AzureConfig) (es : List Event) :
    ∀ p : Page, Settled p → p.user_info = [] → (run P cfg es p).user_info = [] := by
  induction es with
  | nil => intro p _ h; exact h
  | cons e es ih =>
    intro p hp hu
    refine ih _ (step_settled P cfg e p hp) ?_
    rcases step_user_info P cfg e p hp with h | h
    · rw [h, hu]
    · exact h

/-- C10: on every page reached from `onLoad` by events the browser delivers and
on which `state` is `STATE_START`, `revokeToken` returns (it has no way to
throw), `state` stays `STATE_START`, `access_token` was `null` and stays
`null`, the profile area is empty afterwards and the three buttons keep their
`disabled` attributes; when the profile area was empty at `onLoad` it was
empty before the call too, and the call changes nothing but the text of the
log area. -/
theorem C10_revoke_in_start (P : Platform) (cfg : AzureConfig) (markup : List String)
    (es : List Event) (h : (run P cfg es (onLoad P markup)).state = STATE_START) :
    (revokeToken P (run P cfg es (onLoad P markup))).state = STATE_START ∧
    (run P cfg es (onLoad P markup)).access_token = none ∧
    (revokeToken P (run P cfg es (onLoad P markup))).access_token = none ∧
    (revokeToken P (run P cfg es (onLoad P markup))).user_info = [] ∧
    (revokeToken P (run P cfg es (onLoad P markup))).signin_disabled =
      (run P cfg es (onLoad P markup)).signin_disabled ∧
    (revokeToken P (run P cfg es (onLoad P markup))).userinfo_disabled =
      (run P cfg es (onLoad P markup)).userinfo_disabled ∧
    (revokeToken P (run P cfg es (onLoad P markup))).revoke_disabled =
      (run P cfg es (onLoad P markup)).revoke_disabled ∧
    (markup = [] →
      (run P cfg es (onLoad P markup)).user_info = [] ∧
      revokeToken P (run P cfg es (onLoad P markup)) =
        { run P cfg es (onLoad P markup) with
          logarea := "Token revoked. You have been signed out." }) := by
  have hset := run_settled P cfg es _ (onLoad_settled P markup)
  obtain ⟨⟨_, hsign, huser, hrevoke⟩, htoken, _, _⟩ := hset
  have h1 : (run P cfg es (onLoad P markup)).signin_disabled = false := hsign.2 h
  have h2 : (run P cfg es (onLoad P markup)).userinfo_disabled = true := by
    cases hd : (run P cfg es (onLoad P markup)).userinfo_disabled
    · have := huser.1 hd
      rw [h] at this
      exact absurd this (by decide)
    · rfl
  have h3 : (run P cfg es (onLoad P markup)).revoke_disabled = true := by
    cases hd : (run P cfg es (onLoad P markup)).revoke_disabled
    · have := hrevoke.1 hd
      rw [h] at this
      exact absurd this (by decide)
    · rfl
  refine ⟨?_, htoken, ?_, ?_, ?_, ?_, ?_, ?_⟩
  · rw [revokeToken_eq]
  · rw [revokeToken_eq]
  · rw [revokeToken_eq]
  · rw [revokeToken_eq, h1]
  · rw [revokeToken_eq, h2]
  · rw [revokeToken_eq, h3]
  · intro hm
    have hu : (run P cfg es (onLoad P markup)).user_info = [] := by
      refine run_user_info P cfg es _ (onLoad_settled P markup) ?_
      rw [onLoad_eq, hm]
    exact ⟨hu, revokeToken_in_start P _ h htoken hu h1 h2 h3⟩

/-- Witness for C10: the page after a sign-in that failed. -/
theorem C10_revoke_in_start_witness :
    (run samplePlatform azureConfig
        [.signinClick [1, 2] [3], .authFlowDone (some { message := none }) none]
        (onLoad samplePlatform [])).state = STATE_START ∧
    (revokeToken samplePlatform (run samplePlatform azureConfig
        [.signinClick [1, 2] [3], .authFlowDone (some { message := none }) none]
        (onLoad samplePlatform []))).state = STATE_START ∧
    (revokeToken samplePlatform (run samplePlatform azureConfig
        [.signinClick [1, 2] [3], .authFlowDone (some { message := none }) none]
        (onLoad samplePlatform []))).user_info = [] :=
  ⟨by decide,
    (C10_revoke_in_start samplePlatform azureConfig []
      [.signinClick [1, 2] [3], .authFlowDone (some { message := none }) none]
      (by decide)).1,
    (C10_revoke_in_start samplePlatform azureConfig []
      [.signinClick [1, 2] [3], .authFlowDone (some { message := none }) none]
      (by decide)).2.2.2.1⟩

/-! ## What the claims leave aside -/

/-- A redirect URL the `URL` constructor rejects makes the callback throw
before it writes anything: the page stays as it was. -/
theorem authFlowCallback_invalid_url (P : Platform) (cfg : AzureConfig) (url : String)
    (p : Page) (hne : url ≠ "") (hparse : P.newURL url = none) :
    authFlowCallback P cfg none (some url) p = .threw "Invalid URL" p := by
  rw [authFlowCallback_parsed P cfg url p hne, hparse]

/-- The handlers carry no guard of their own: called directly on a page whose
`#signin` is disabled, `interactiveSignIn` still moves `state`. -/
theorem interactiveSignIn_unguarded (P : Platform) (cfg : AzureConfig)
    (r1 r2 : List (Fin 36)) (p : Page) :
    (handle P cfg (.signinClick r1 r2) p).state = STATE_ACQUIRING_AUTHTOKEN := by
  rw [show handle P cfg (.signinClick r1 r2) p = interactiveSignIn P cfg r1 r2 p from rfl,
    interactiveSignIn_eq]

end IdentityAzure
